import Mathlib

/-!
Verification development for the isekai game engine (models/character.py,
models/combat.py, models/dungeon.py, models/encounter.py).

The Python code is shallowly embedded: integers are `Int` with Python floor
division (`Int.fdiv`) and floor modulo (`Int.emod`); the process-global
`random` generator is an explicit stream of natural numbers consumed in the
same order as the source consumes draws (`random.randint(a,b)` becomes
`a + draw % (b - a + 1)`, `random.random() < p` becomes a threshold
comparison on a draw, `random.choice` / `random.shuffle` pick by draws);
mutable dictionaries become records, aliased references to participants
become indices into the participants list, and calls that can raise
(out-of-range list indexing) return `Option`.
-/

namespace Isekai

/-- Python floor division `//` on integers. -/
def pyDiv (a b : Int) : Int := Int.fdiv a b

/-- Python floor modulo `%` on integers. -/
def pyMod (a b : Int) : Int := Int.emod a b

/-- Python `int()` truncation toward zero of the exact rational `a / b`
(`Int.tdiv` truncates toward zero); the source computes these quantities in
binary floating point, whose rounding is immaterial to every claim. -/
def pyTrunc (a b : Int) : Int := Int.tdiv a b

/-- The in-process random generator, modelled as a stream of raw natural
draws together with the position of the next unconsumed draw.  Every
randomized primitive of the source consumes draws from the stream in
source order, so a computation is a deterministic function of the stream. -/
structure Dice where
  f : Nat → Nat
  pos : Nat

namespace Dice

/-- Consume one raw draw. -/
def next (g : Dice) : Nat × Dice := (g.f g.pos, ⟨g.f, g.pos + 1⟩)

/-- `random.randint(lo, hi)`: uniform integer in `[lo, hi]`; the raw draw is
reduced into the range, so every value in the range is realizable. -/
def randint (g : Dice) (lo hi : Nat) : Nat × Dice :=
  let (v, g) := g.next
  (lo + v % (hi + 1 - lo), g)

/-- `random.random() < p` for a threshold `p` given in thousandths: the unit
float draw is modelled with three-decimal resolution. -/
def randLt (g : Dice) (milli : Nat) : Bool × Dice :=
  let (v, g) := g.next
  (v % 1000 < milli, g)

/-- `random.choice(l)`: pick an element of a nonempty list by a draw. -/
def choice {α : Type} (g : Dice) (l : List α) (dflt : α) : α × Dice :=
  let (v, g) := g.next
  (l.getD (v % l.length) dflt, g)

end Dice

/-- Selection steps of `random.shuffle(l)`: `n` times, extract an element at
a drawn index.  The fuel `n` is instantiated with the length of the list. -/
def shuffleGo {α : Type} (dflt : α) : Nat → List α → Dice → List α × Dice
  | 0, _, g => ([], g)
  | n + 1, l, g =>
    let (v, g') := g.next
    let i := v % l.length
    let y := l.getD i dflt
    let rest := l.eraseIdx i
    let (ys, g'') := shuffleGo dflt n rest g'
    (y :: ys, g'')

/-- `random.shuffle(l)`: a draw-driven permutation of `l`. -/
def shuffle {α : Type} (dflt : α) (l : List α) (g : Dice) : List α × Dice :=
  shuffleGo dflt l.length l g

theorem shuffleGo_mem {α : Type} (dflt : α) :
    ∀ (n : Nat) (l : List α) (g : Dice) (x : α), n ≤ l.length →
      x ∈ (shuffleGo dflt n l g).1 → x ∈ l
  | 0, l, g, x, _, hx => by simp [shuffleGo] at hx
  | n + 1, l, g, x, hn, hx => by
    rw [shuffleGo] at hx
    simp only [List.mem_cons] at hx
    have hpos : 0 < l.length := Nat.lt_of_lt_of_le (Nat.succ_pos n) hn
    have hi : (g.next.1) % l.length < l.length := Nat.mod_lt _ hpos
    rcases hx with hx | hx
    · subst hx
      rw [List.getD_eq_getElem?_getD, List.getElem?_eq_getElem hi]
      exact List.getElem_mem hi
    · have hrest : n ≤ (l.eraseIdx ((g.next.1) % l.length)).length := by
        rw [List.length_eraseIdx]
        simp only [hi, if_true]
        omega
      exact List.mem_of_mem_eraseIdx (shuffleGo_mem dflt n _ _ x hrest hx)

/-- Elements of a shuffled list all come from the original list. -/
theorem shuffle_mem {α : Type} (dflt : α) (l : List α) (g : Dice) (x : α)
    (hx : x ∈ (shuffle dflt l g).1) : x ∈ l :=
  shuffleGo_mem dflt l.length l g x (Nat.le_refl _) hx

/-- Apostrophe character, spliced into the strings of the source that
contain one. -/
def apos : String := String.singleton (Char.ofNat 39)

/-! ## Character model (models/character.py) -/

/-- The `{strength, dexterity, wisdom}` attribute mapping. -/
structure Attributes where
  strength : Int
  dexterity : Int
  wisdom : Int
deriving Repr, DecidableEq

/-- A skill record: `{name, mp_cost, description}`. -/
structure Skill where
  name : String
  mp_cost : Int
  description : String
deriving Repr, DecidableEq

/-- An inventory item record; the keys that appear on items in
character.py (`name`, `type`, and per-item `damage` / `defense` /
`effect`). -/
structure InvItem where
  name : String
  itype : String
  damage : Option String := none
  defense : Option Int := none
  effect : Option String := none
deriving Repr, DecidableEq

/-- The equipment mapping `slot -> item name` with the three fixed slots. -/
structure Equipment where
  weapon : Option String
  armor : Option String
  accessory : Option String
deriving Repr, DecidableEq

structure Character where
  name : String
  char_class : String
  origin : String
  level : Int
  xp : Int
  attributes : Attributes
  max_hp : Int
  max_mp : Int
  hp : Int
  mp : Int
  inventory : List InvItem
  equipment : Equipment
  skills : List Skill
deriving Repr, DecidableEq

/-- `Character._set_starting_equipment`: items appended to the inventory,
keyed by class. -/
def startingInventory (char_class : String) : List InvItem :=
  if char_class = "Warrior" then
    [{ name := "Iron Sword", itype := "weapon", damage := some "1d8" },
     { name := "Leather Armor", itype := "armor", defense := some 2 }]
  else if char_class = "Wizard" then
    [{ name := "Apprentice Staff", itype := "weapon", damage := some "1d6" },
     { name := "Spellbook", itype := "accessory", effect := some "+1 to spell damage" }]
  else if char_class = "White Mage" then
    [{ name := "Healing Rod", itype := "weapon", damage := some "1d4" },
     { name := "White Robes", itype := "armor", defense := some 1 }]
  else if char_class = "Wanderer" then
    [{ name := "Shortbow", itype := "weapon", damage := some "1d6" },
     { name := "Traveler" ++ apos ++ "s Cloak", itype := "armor", defense := some 1 }]
  else []

/-- `Character._set_starting_equipment`: the equipment slots set by class. -/
def startingEquipment (char_class : String) : Equipment :=
  if char_class = "Warrior" then
    { weapon := some "Iron Sword", armor := some "Leather Armor", accessory := none }
  else if char_class = "Wizard" then
    { weapon := some "Apprentice Staff", armor := none, accessory := some "Spellbook" }
  else if char_class = "White Mage" then
    { weapon := some "Healing Rod", armor := some "White Robes", accessory := none }
  else if char_class = "Wanderer" then
    { weapon := some "Shortbow", armor := some ("Traveler" ++ apos ++ "s Cloak"),
      accessory := none }
  else { weapon := none, armor := none, accessory := none }

/-- `Character._get_class_skills`. -/
def classSkills (char_class : String) : List Skill :=
  if char_class = "Warrior" then
    [{ name := "Power Attack", mp_cost := 0,
       description := "Deal extra damage but with reduced accuracy" },
     { name := "Defend", mp_cost := 0,
       description := "Reduce damage taken until your next turn" }]
  else if char_class = "Wizard" then
    [{ name := "Arcane Missile", mp_cost := 3,
       description := "Deal 1d4+1 damage to a target" },
     { name := "Shield", mp_cost := 4,
       description := "Create a protective barrier for 1d4 turns" }]
  else if char_class = "White Mage" then
    [{ name := "Heal", mp_cost := 3, description := "Restore 1d6+1 HP to a target" },
     { name := "Bless", mp_cost := 2,
       description := "Increase an ally" ++ apos ++ "s next roll by 2" }]
  else if char_class = "Wanderer" then
    [{ name := "Quick Shot", mp_cost := 0, description := "Deal 1d6 damage from range" },
     { name := "Evade", mp_cost := 2,
       description := "High chance to avoid the next attack" }]
  else []

/-- `Character.__init__` on the path where attributes are supplied (the
path exercised by `from_dict` and by attribute-supplied creation; the
attribute-rolling path draws 4d6-drop-lowest instead). -/
def Character.create (name char_class origin : String) (attributes : Attributes) :
    Character :=
  let max_hp := 10 + pyDiv attributes.strength 2
  let max_mp := 10 + pyDiv attributes.wisdom 2
  { name := name, char_class := char_class, origin := origin, level := 1, xp := 0,
    attributes := attributes, max_hp := max_hp, max_mp := max_mp,
    hp := max_hp, mp := max_mp,
    inventory := startingInventory char_class,
    equipment := startingEquipment char_class,
    skills := classSkills char_class }

/-- `Character._add_advanced_skill`: the class-keyed advanced skill pool. -/
def advancedSkills (char_class : String) : List Skill :=
  if char_class = "Warrior" then
    [{ name := "Whirlwind", mp_cost := 2,
       description := "Attack all enemies for 1d6 damage" },
     { name := "Unbreakable", mp_cost := 4,
       description := "Reduce all damage by half for 3 turns" }]
  else if char_class = "Wizard" then
    [{ name := "Fireball", mp_cost := 6,
       description := "Deal 2d6 fire damage to all enemies" },
     { name := "Time Stop", mp_cost := 8, description := "Take an extra action" }]
  else if char_class = "White Mage" then
    [{ name := "Mass Heal", mp_cost := 6,
       description := "Heal all allies for 1d4+2 HP" },
     { name := "Revive", mp_cost := 10,
       description := "Restore a fallen ally with 1/2 HP" }]
  else if char_class = "Wanderer" then
    [{ name := "Sneak Attack", mp_cost := 3,
       description := "Deal 2d6 damage if enemy hasn" ++ apos ++ "t acted" },
     { name := "Smoke Bomb", mp_cost := 4,
       description := "Escape combat or cause enemies to miss" }]
  else []

/-- `Character._add_advanced_skill`: append one random not-yet-known
class skill (a draw is consumed only when a new skill exists). -/
def Character.addAdvancedSkill (c : Character) (g : Dice) : Character × Dice :=
  let available := advancedSkills c.char_class
  let existing := c.skills.map (·.name)
  let new_skills := available.filter (fun s => ¬ existing.contains s.name)
  if new_skills = [] then (c, g)
  else
    let (s, g) := g.choice new_skills
      ⟨"", 0, ""⟩
    ({ c with skills := c.skills ++ [s] }, g)

/-- `Character.level_up`. -/
def Character.level_up (c : Character) (g : Dice) : Character × Dice :=
  let level := c.level + 1
  let (h6, g) := g.randint 1 6
  let (d4, g) := g.randint 1 4
  let hp_increase : Int := (h6 : Int) + pyDiv c.attributes.strength 4
  let mp_increase : Int := (d4 : Int) + pyDiv c.attributes.wisdom 4
  let max_hp := c.max_hp + hp_increase
  let max_mp := c.max_mp + mp_increase
  let c := { c with level := level, max_hp := max_hp, max_mp := max_mp,
                    hp := max_hp, mp := max_mp }
  if pyMod level 3 = 0 then c.addAdvancedSkill g else (c, g)

/-- `Character.gain_xp`: add xp; if the running total reaches
`level * 1000`, level up once and report `true`. -/
def Character.gain_xp (c : Character) (amount : Int) (g : Dice) :
    (Character × Dice) × Bool :=
  let c := { c with xp := c.xp + amount }
  let xp_needed := c.level * 1000
  if c.xp ≥ xp_needed then (c.level_up g, true) else ((c, g), false)

/-- Result dictionary of `Character.use_skill`. -/
structure SkillResult where
  success : Bool
  message : String
  skill : Option String := none
  damage : Option Int := none
  healing : Option Int := none
deriving Repr, DecidableEq

/-- `Character.use_skill`: look the skill up by name, charge its mp cost,
and compute the per-skill effect. -/
def Character.use_skill (c : Character) (skill_name : String) (g : Dice) :
    (Character × SkillResult) × Dice :=
  match c.skills.find? (fun s => s.name == skill_name) with
  | none =>
    ((c, { success := false,
           message := "Skill " ++ skill_name ++ " not found" }), g)
  | some skill =>
    if c.mp < skill.mp_cost then
      ((c, { success := false, message := "Not enough MP" }), g)
    else
      let c := { c with mp := c.mp - skill.mp_cost }
      if skill_name == "Power Attack" then
        let (r, g) := g.randint 1 8
        let damage : Int := (r : Int) + pyDiv c.attributes.strength 2 + 2
        ((c, { success := true, skill := some skill_name, damage := some damage,
               message := "Powerful attack deals " ++ toString damage ++ " damage!" }), g)
      else if skill_name == "Arcane Missile" then
        let (r, g) := g.randint 1 4
        let damage : Int := (r : Int) + 1
        ((c, { success := true, skill := some skill_name, damage := some damage,
               message := "Magic missile hits for " ++ toString damage ++ " damage!" }), g)
      else if skill_name == "Heal" then
        let (r, g) := g.randint 1 6
        let healing : Int := (r : Int) + 1
        ((c, { success := true, skill := some skill_name, healing := some healing,
               message := "Healing magic restores " ++ toString healing ++ " HP!" }), g)
      else if skill_name == "Quick Shot" then
        let (r, g) := g.randint 1 6
        let damage : Int := (r : Int)
        ((c, { success := true, skill := some skill_name, damage := some damage,
               message := "Quick arrow deals " ++ toString damage ++ " damage!" }), g)
      else
        ((c, { success := true, skill := some skill_name,
               message := "Used " ++ skill_name ++ "!" }), g)

theorem addAdvancedSkill_eq (c : Character) (g : Dice) :
    ∃ sk gg, c.addAdvancedSkill g = ({ c with skills := sk }, gg) := by
  unfold Character.addAdvancedSkill
  simp only [Dice.choice, Dice.next]
  split_ifs
  · exact ⟨c.skills, g, rfl⟩
  · exact ⟨_, _, rfl⟩

theorem addAdvancedSkill_level (c : Character) (g : Dice) :
    ((c.addAdvancedSkill g).1).level = c.level := by
  obtain ⟨sk, gg, h⟩ := addAdvancedSkill_eq c g
  rw [h]

theorem addAdvancedSkill_max_hp (c : Character) (g : Dice) :
    ((c.addAdvancedSkill g).1).max_hp = c.max_hp := by
  obtain ⟨sk, gg, h⟩ := addAdvancedSkill_eq c g
  rw [h]

theorem addAdvancedSkill_max_mp (c : Character) (g : Dice) :
    ((c.addAdvancedSkill g).1).max_mp = c.max_mp := by
  obtain ⟨sk, gg, h⟩ := addAdvancedSkill_eq c g
  rw [h]

theorem addAdvancedSkill_hp (c : Character) (g : Dice) :
    ((c.addAdvancedSkill g).1).hp = c.hp := by
  obtain ⟨sk, gg, h⟩ := addAdvancedSkill_eq c g
  rw [h]

theorem addAdvancedSkill_mp (c : Character) (g : Dice) :
    ((c.addAdvancedSkill g).1).mp = c.mp := by
  obtain ⟨sk, gg, h⟩ := addAdvancedSkill_eq c g
  rw [h]

theorem level_up_spec (c : Character) (g : Dice)
    (hs : 0 ≤ c.attributes.strength) (hw : 0 ≤ c.attributes.wisdom) :
    ((c.level_up g).1).level = c.level + 1 ∧
    c.max_hp < ((c.level_up g).1).max_hp ∧
    c.max_mp < ((c.level_up g).1).max_mp ∧
    ((c.level_up g).1).hp = ((c.level_up g).1).max_hp ∧
    ((c.level_up g).1).mp = ((c.level_up g).1).max_mp := by
  have hds : 0 ≤ pyDiv c.attributes.strength 4 :=
    Int.fdiv_nonneg hs (by norm_num)
  have hdw : 0 ≤ pyDiv c.attributes.wisdom 4 :=
    Int.fdiv_nonneg hw (by norm_num)
  unfold Character.level_up
  simp only [Dice.randint, Dice.next]
  split_ifs <;>
    simp only [addAdvancedSkill_level, addAdvancedSkill_max_hp, addAdvancedSkill_max_mp,
      addAdvancedSkill_hp, addAdvancedSkill_mp] <;>
    refine ⟨?_, ?_, ?_, ?_, ?_⟩ <;> first | trivial | omega

/-- C4: `gain_xp(a)` levels up (returning `true`) exactly when the new xp
total reaches `level * 1000` — at most one level-up per call even across
several thresholds; a level-up raises the level by exactly one, strictly
increases both maxima and fully restores hp and mp; otherwise only the xp
changes and `false` is returned.  The attribute hypotheses reflect the
data model's nonnegative attribute range. -/
theorem c4_gain_xp_spec (c : Character) (amount : Int) (g : Dice)
    (hs : 0 ≤ c.attributes.strength) (hw : 0 ≤ c.attributes.wisdom) :
    ((c.gain_xp amount g).2 = true ↔ c.level * 1000 ≤ c.xp + amount) ∧
    (c.level * 1000 ≤ c.xp + amount →
      ((c.gain_xp amount g).1.1.level = c.level + 1 ∧
       c.max_hp < (c.gain_xp amount g).1.1.max_hp ∧
       c.max_mp < (c.gain_xp amount g).1.1.max_mp ∧
       (c.gain_xp amount g).1.1.hp = (c.gain_xp amount g).1.1.max_hp ∧
       (c.gain_xp amount g).1.1.mp = (c.gain_xp amount g).1.1.max_mp)) ∧
    (c.xp + amount < c.level * 1000 →
      ((c.gain_xp amount g).2 = false ∧
       (c.gain_xp amount g).1.1 = { c with xp := c.xp + amount })) := by
  by_cases h : c.level * 1000 ≤ c.xp + amount
  · have he : c.gain_xp amount g =
        (Character.level_up { c with xp := c.xp + amount } g, true) := by
      unfold Character.gain_xp
      rw [if_pos]
      exact h
    rw [he]
    have hl := level_up_spec { c with xp := c.xp + amount } g hs hw
    exact ⟨⟨fun _ => h, fun _ => rfl⟩, fun _ => hl,
      fun hlt => absurd h (not_le.mpr hlt)⟩
  · have he : c.gain_xp amount g = (({ c with xp := c.xp + amount }, g), false) := by
      unfold Character.gain_xp
      rw [if_neg]
      exact h
    rw [he]
    exact ⟨⟨fun hcon => absurd (Bool.false_ne_true hcon) (fun f => f),
        fun hcon => absurd hcon h⟩,
      fun hcon => absurd hcon h, fun _ => ⟨rfl, rfl⟩⟩

/-- C4 witness: a level-1 Warrior with 500 xp gaining 500 more reaches the
1000-xp threshold and the call reports a level-up. -/
theorem c4_gain_xp_spec_witness :
    (Character.gain_xp
      { Character.create "Hiro" "Warrior" "summoned" ⟨14, 12, 10⟩ with xp := 500 }
      500 ⟨fun _ => 0, 0⟩).2 = true :=
  (c4_gain_xp_spec _ 500 ⟨fun _ => 0, 0⟩ (by decide) (by decide)).1.mpr (by decide)

/-- C5: when the skill looked up by name is owned by the character,
`use_skill` with insufficient mp fails with a message and no state change;
with sufficient mp it succeeds and deducts exactly the mp cost. -/
theorem c5_use_skill_spec (c : Character) (nm : String) (s : Skill) (g : Dice)
    (hfind : c.skills.find? (fun k => k.name == nm) = some s) :
    (c.mp < s.mp_cost →
      ((c.use_skill nm g).1.1 = c ∧
       (c.use_skill nm g).1.2.success = false ∧
       (c.use_skill nm g).1.2.message = "Not enough MP")) ∧
    (s.mp_cost ≤ c.mp →
      ((c.use_skill nm g).1.1.mp = c.mp - s.mp_cost ∧
       (c.use_skill nm g).1.2.success = true ∧
       (c.use_skill nm g).1.1.hp = c.hp ∧
       (c.use_skill nm g).1.1.xp = c.xp ∧
       (c.use_skill nm g).1.1.level = c.level ∧
       (c.use_skill nm g).1.1.inventory = c.inventory ∧
       (c.use_skill nm g).1.1.equipment = c.equipment ∧
       (c.use_skill nm g).1.1.skills = c.skills)) := by
  unfold Character.use_skill
  rw [hfind]
  dsimp only
  constructor
  · intro hlt
    rw [if_pos hlt]
    exact ⟨rfl, rfl, rfl⟩
  · intro hle
    rw [if_neg (not_lt.mpr hle)]
    split <;> first
      | exact ⟨rfl, rfl, rfl, rfl, rfl, rfl, rfl, rfl⟩
      | (split <;> first
          | exact ⟨rfl, rfl, rfl, rfl, rfl, rfl, rfl, rfl⟩
          | (split <;> first
              | exact ⟨rfl, rfl, rfl, rfl, rfl, rfl, rfl, rfl⟩
              | (split <;> exact ⟨rfl, rfl, rfl, rfl, rfl, rfl, rfl, rfl⟩)))

/-- C5 witness: a Wizard-skilled character with 2 mp cannot pay Arcane
Missile's cost of 3 — the call fails with the insufficient-mp message. -/
theorem c5_use_skill_spec_witness :
    (Character.use_skill
      { Character.create "Mira" "Wizard" "portal" ⟨10, 10, 14⟩ with mp := 2 }
      "Arcane Missile" ⟨fun _ => 0, 0⟩).1.2.message = "Not enough MP" :=
  ((c5_use_skill_spec _ "Arcane Missile"
    { name := "Arcane Missile", mp_cost := 3,
      description := "Deal 1d4+1 damage to a target" }
    ⟨fun _ => 0, 0⟩ (by decide)).1 (by decide)).2.2

/-! ## Dungeon model (models/dungeon.py) -/

/-- An enemy record inside a populate-pass combat encounter. -/
structure Enemy where
  name : String
  hp : Int
  attack : Int
  defense : Int
deriving Repr, DecidableEq

/-- A populate-pass encounter dictionary (`{"type": "combat", "enemies",
"completed"}`). -/
structure PopEncounter where
  etype : String
  enemies : List Enemy
  completed : Bool
deriving Repr, DecidableEq

/-- A treasure dictionary of the populate pass. -/
structure Treasure where
  ttype : String
  component_type : Option String := none
  name : String
  description : Option String := none
  value : Int
  found : Bool
  requires_puzzle : Option Bool := none
deriving Repr, DecidableEq

/-- A room feature dictionary of the populate pass. -/
structure Feature where
  ftype : String
  name : String
  description : String
  difficulty : Option Int := none
  solved : Option Bool := none
  heal_amount : Option Int := none
deriving Repr, DecidableEq

/-- A dungeon room: grid position, direction-bitmask links, optional type,
flags and content. -/
structure Room where
  row : Nat
  col : Nat
  links : Nat
  room_type : Option Nat
  discovered : Bool
  visited : Bool
  encounters : List PopEncounter
  treasures : List Treasure
  description : String
  features : List Feature
  difficulty : Int
deriving Repr, DecidableEq

namespace Room

def ENTRANCE : Nat := 0
def EXIT : Nat := 1
def COMBAT : Nat := 2
def TREASURE : Nat := 3
def PUZZLE : Nat := 4
def REST : Nat := 5
def BOSS : Nat := 6

def NORTH : Nat := 1
def SOUTH : Nat := 2
def EAST : Nat := 4
def WEST : Nat := 8

/-- The `OPPOSITES` mapping. -/
def OPPOSITE (d : Nat) : Nat :=
  if d = NORTH then SOUTH
  else if d = SOUTH then NORTH
  else if d = EAST then WEST
  else if d = WEST then EAST
  else 0

/-- The `DIRECTION_NAMES` mapping. -/
def DIRECTION_NAME (d : Nat) : String :=
  if d = NORTH then "north"
  else if d = SOUTH then "south"
  else if d = EAST then "east"
  else if d = WEST then "west"
  else ""

/-- `Room.__init__`. -/
def init (row col : Nat) : Room :=
  { row := row, col := col, links := 0, room_type := none, discovered := false,
    visited := false, encounters := [], treasures := [], description := "",
    features := [], difficulty := 1 }

/-- `Room.linked`. -/
def linked (r : Room) (d : Nat) : Bool := (r.links &&& d) ≠ 0

/-- `Room.link`. -/
def link (r : Room) (d : Nat) : Room := { r with links := r.links ||| d }

/-- `Room.get_links`. -/
def get_links (r : Room) : List Nat :=
  (if r.linked NORTH then [NORTH] else []) ++
  (if r.linked SOUTH then [SOUTH] else []) ++
  (if r.linked EAST then [EAST] else []) ++
  (if r.linked WEST then [WEST] else [])

/-- `Room.get_link_directions`. -/
def get_link_directions (r : Room) : List String :=
  r.get_links.map DIRECTION_NAME

/-- Default description installed by `Room.set_room_type` when none set. -/
def defaultDescription (t : Nat) : String :=
  if t = ENTRANCE then
    "Neon light spills through a gateway as you enter the dungeon. The walls pulse with digital energy, and the air hums with the promise of adventure."
  else if t = EXIT then
    "A shimmering portal marks the exit from this level. Beyond it, you can see the digital landscape of the next challenge."
  else if t = COMBAT then
    "The room crackles with hostile energy. Digital constructs materialize, their code forming aggressive patterns as they detect your presence."
  else if t = TREASURE then
    "Glowing containers line the walls, their contents casting prismatic light across the room. Valuable data and resources await collection."
  else if t = PUZZLE then
    "Strange symbols illuminate panels on the walls. A central pedestal contains an interactive interface that seems to require specific input."
  else if t = REST then
    "The gentle hum of maintenance protocols fills this room. The aggressive code of the dungeon seems dampened here, offering a moment of respite."
  else if t = BOSS then
    "The room expands into a massive chamber. At its center, a powerful entity composed of concentrated digital energy awaits, its presence distorting the surrounding space."
  else ""

/-- `Room.set_room_type`: set the type and, when the room has no
description yet, the type's default description. -/
def set_room_type (r : Room) (t : Nat) : Room :=
  let r := { r with room_type := some t }
  if r.description = "" then { r with description := defaultDescription t } else r

/-- `Room.add_encounter`. -/
def add_encounter (r : Room) (e : PopEncounter) : Room :=
  { r with encounters := r.encounters ++ [e] }

/-- `Room.add_treasure`. -/
def add_treasure (r : Room) (t : Treasure) : Room :=
  { r with treasures := r.treasures ++ [t] }

/-- `Room.add_feature`. -/
def add_feature (r : Room) (f : Feature) : Room :=
  { r with features := r.features ++ [f] }

end Room

/-- A dungeon level: a `rows × cols` grid of rooms (total function on
positions; only in-range positions are ever read), entrance/exit room
references modelled as positions. -/
structure DungeonLevel where
  rows : Nat
  cols : Nat
  level_num : Int
  theme : String
  rooms : Nat → Nat → Room
  entrance : Option (Nat × Nat)
  exit : Option (Nat × Nat)
  name : String
  description : String

namespace DungeonLevel

/-- `DungeonLevel.__init__`. -/
def init (rows cols : Nat) (level_num : Int) (theme : String) : DungeonLevel :=
  { rows := rows, cols := cols, level_num := level_num, theme := theme,
    rooms := fun r c => Room.init r c,
    entrance := none, exit := none,
    name := "Level " ++ toString level_num ++ ": The Digital Deep",
    description := "A labyrinthine network of neon corridors stretching into the digital unknown." }

/-- `DungeonLevel.is_valid`. -/
def is_valid (d : DungeonLevel) (row col : Int) : Bool :=
  0 ≤ row ∧ row < (d.rows : Int) ∧ 0 ≤ col ∧ col < (d.cols : Int)

/-- The `DIRECTION_OFFSETS` mapping (row offset, col offset). -/
def offsetOf (dir : Nat) : Int × Int :=
  if dir = Room.NORTH then (-1, 0)
  else if dir = Room.SOUTH then (1, 0)
  else if dir = Room.EAST then (0, 1)
  else if dir = Room.WEST then (0, -1)
  else (0, 0)

/-- `DungeonLevel.get_adjacent_room`, returning the adjacent room's
position (the room object reference in the source). -/
def get_adjacent_pos (d : DungeonLevel) (pos : Nat × Nat) (dir : Nat) :
    Option (Nat × Nat) :=
  let off := offsetOf dir
  let new_row : Int := (pos.1 : Int) + off.1
  let new_col : Int := (pos.2 : Int) + off.2
  if d.is_valid new_row new_col then some (new_row.toNat, new_col.toNat) else none

/-- Update the room at one grid position (dictionary/object mutation
through a reference). -/
def updateRoom (d : DungeonLevel) (pos : Nat × Nat) (f : Room → Room) :
    DungeonLevel :=
  { d with rooms := fun r c =>
      if r = pos.1 ∧ c = pos.2 then f (d.rooms r c) else d.rooms r c }

/-- `DungeonLevel.link_rooms`: link the room at `pos` to its neighbour in
`dir`, reciprocally; `false` and no change when out of bounds. -/
def link_rooms (d : DungeonLevel) (pos : Nat × Nat) (dir : Nat) :
    Bool × DungeonLevel :=
  match d.get_adjacent_pos pos dir with
  | none => (false, d)
  | some pos2 =>
    let d := d.updateRoom pos (fun r => r.link dir)
    let d := d.updateRoom pos2 (fun r => r.link (Room.OPPOSITE dir))
    (true, d)

/-- `DungeonLevel.set_entrance`. -/
def set_entrance (d : DungeonLevel) (row col : Nat) : DungeonLevel :=
  let d := d.updateRoom (row, col) (fun r => r.set_room_type Room.ENTRANCE)
  { d with entrance := some (row, col) }

/-- `DungeonLevel.set_exit`. -/
def set_exit (d : DungeonLevel) (row col : Nat) : DungeonLevel :=
  let d := d.updateRoom (row, col) (fun r => r.set_room_type Room.EXIT)
  { d with exit := some (row, col) }

end DungeonLevel

theorem or_ne_zero_right (a b : Nat) (h : b ≠ 0) : a ||| b ≠ 0 := by
  intro hc
  apply h
  apply Nat.eq_of_testBit_eq
  intro k
  have hb := congrArg (fun n => n.testBit k) hc
  simp only [Nat.testBit_lor, Nat.zero_testBit, Bool.or_eq_false_iff] at hb
  simp [hb.2, Nat.zero_testBit]

theorem or_ne_zero_left (a b : Nat) (h : a ≠ 0) : a ||| b ≠ 0 := by
  intro hc
  apply h
  apply Nat.eq_of_testBit_eq
  intro k
  have hb := congrArg (fun n => n.testBit k) hc
  simp only [Nat.testBit_lor, Nat.zero_testBit, Bool.or_eq_false_iff] at hb
  simp [hb.1, Nat.zero_testBit]

theorem nat_and_or_right (a b c : Nat) : (a ||| b) &&& c = (a &&& c) ||| (b &&& c) := by
  rw [Nat.and_comm, Nat.and_or_distrib_left, Nat.and_comm c a, Nat.and_comm c b]

theorem linked_link_self (r : Room) (d : Nat) (hd : d ≠ 0) :
    (r.link d).linked d = true := by
  unfold Room.link Room.linked
  simp only [decide_eq_true_eq, ne_eq]
  rw [nat_and_or_right, Nat.and_self]
  exact or_ne_zero_right _ _ hd

theorem linked_mono (r : Room) (d1 d2 : Nat) (h : r.linked d1 = true) :
    (r.link d2).linked d1 = true := by
  unfold Room.link Room.linked
  unfold Room.linked at h
  simp only [decide_eq_true_eq, ne_eq] at *
  rw [nat_and_or_right]
  exact or_ne_zero_left _ _ h

theorem get_links_mono (r : Room) (d : Nat) (h : r.get_links ≠ []) :
    (r.link d).get_links ≠ [] := by
  unfold Room.get_links at *
  by_cases h1 : r.linked Room.NORTH
  · have := linked_mono r Room.NORTH d h1
    simp [this]
  by_cases h2 : r.linked Room.SOUTH
  · have := linked_mono r Room.SOUTH d h2
    simp [this]
  by_cases h3 : r.linked Room.EAST
  · have := linked_mono r Room.EAST d h3
    simp [this]
  by_cases h4 : r.linked Room.WEST
  · have := linked_mono r Room.WEST d h4
    simp [this]
  exfalso
  apply h
  simp [h1, h2, h3, h4]

/-- C6: `link_rooms` succeeds exactly when the neighbour in direction `dir`
is inside the grid, and then sets the link on the room and the reciprocal
link on the neighbour; out of bounds it returns `false` and changes
nothing.  `dir` ranges over the four direction constants. -/
theorem c6_link_rooms_spec (d : DungeonLevel) (pos : Nat × Nat) (dir : Nat)
    (hdir : dir = Room.NORTH ∨ dir = Room.SOUTH ∨ dir = Room.EAST ∨
      dir = Room.WEST) :
    (∀ pos2, d.get_adjacent_pos pos dir = some pos2 →
      ((d.link_rooms pos dir).1 = true ∧
       (((d.link_rooms pos dir).2).rooms pos.1 pos.2).linked dir = true ∧
       (((d.link_rooms pos dir).2).rooms pos2.1 pos2.2).linked
         (Room.OPPOSITE dir) = true)) ∧
    (d.get_adjacent_pos pos dir = none → d.link_rooms pos dir = (false, d)) := by
  have hd0 : dir ≠ 0 := by
    rcases hdir with h | h | h | h <;> subst h <;> decide
  have hod0 : Room.OPPOSITE dir ≠ 0 := by
    rcases hdir with h | h | h | h <;> subst h <;> decide
  constructor
  · intro pos2 h
    unfold DungeonLevel.link_rooms
    rw [h]
    dsimp only
    unfold DungeonLevel.updateRoom
    dsimp only
    refine ⟨rfl, ?_, ?_⟩
    · by_cases hpp : pos.1 = pos2.1 ∧ pos.2 = pos2.2
      · simp only [hpp, and_self, if_true, if_pos (And.intro rfl rfl)]
        exact linked_mono _ _ _ (linked_link_self _ _ hd0)
      · simp only [if_neg hpp, if_pos (And.intro rfl rfl)]
        exact linked_link_self _ _ hd0
    · simp only [if_pos (And.intro rfl rfl)]
      exact linked_link_self _ _ hod0
  · intro h
    unfold DungeonLevel.link_rooms
    rw [h]

/-- C6 witness: linking the room at (0,0) of a 5×5 dungeon northward fails
without mutation, as in the claim's example. -/
theorem c6_link_rooms_spec_witness :
    (DungeonLevel.init 5 5 1 "neon").link_rooms (0, 0) Room.NORTH =
      (false, DungeonLevel.init 5 5 1 "neon") :=
  (c6_link_rooms_spec _ (0, 0) Room.NORTH (Or.inl rfl)).2 (by decide)

/-- Python `str.capitalize()`: first character upper-cased, rest lowered. -/
def pyCapitalize (s : String) : String :=
  match s.data with
  | [] => ""
  | c :: cs => String.mk (c.toUpper :: cs.map Char.toLower)

/-- One cell of the connectivity pass shared by the three generation
algorithms (`binary_space_partition` / `maze_based` / `cellular_automata`):
probabilistically link east then south; a draw is consumed only when the
neighbour exists (Python short-circuit). -/
def linkStep (milli rows cols : Nat) (s : DungeonLevel × Dice) (p : Nat × Nat) :
    DungeonLevel × Dice :=
  let (d, g) := s
  let (d, g) :=
    if p.2 < cols - 1 then
      let (b, g) := g.randLt milli
      if b then ((d.link_rooms p Room.EAST).2, g) else (d, g)
    else (d, g)
  if p.1 < rows - 1 then
    let (b, g) := g.randLt milli
    if b then ((d.link_rooms p Room.SOUTH).2, g) else (d, g)
  else (d, g)

/-- Row-major list of all grid positions. -/
def gridPositions (rows cols : Nat) : List (Nat × Nat) :=
  (List.range rows).flatMap (fun r => (List.range cols).map (fun c => (r, c)))

/-- The connectivity pass over the whole grid with the given link
probability (0.7 for "bsp", 0.5 for "maze", 0.6 for "cellular"). -/
def connectivityPass (milli : Nat) (d : DungeonLevel) (g : Dice) :
    DungeonLevel × Dice :=
  (gridPositions d.rows d.cols).foldl (linkStep milli d.rows d.cols) (d, g)

/-- `set_entrance_exit`, first step: when the entrance cell has no links,
force a link to the room above (`entrance_row > 0`). -/
def forceEntranceLink (d : DungeonLevel) : DungeonLevel :=
  let entrance_row := d.rows - 1
  let entrance_col := d.cols / 2
  if (d.rooms entrance_row entrance_col).get_links = [] then
    if 0 < entrance_row then (d.link_rooms (entrance_row, entrance_col) Room.NORTH).2
    else d
  else d

/-- `set_entrance_exit`, third step: when the exit cell has no links, force
a link to the room below (`exit_row < rows - 1`). -/
def forceExitLink (d : DungeonLevel) : DungeonLevel :=
  let exit_row := 0
  let exit_col := d.cols / 2
  if (d.rooms exit_row exit_col).get_links = [] then
    if exit_row < d.rows - 1 then (d.link_rooms (exit_row, exit_col) Room.SOUTH).2
    else d
  else d

/-- `DungeonGenerator.set_entrance_exit`: entrance bottom-row centre, exit
top-row centre, with a forced interior link when a placed cell has no
links. -/
def setEntranceExit (d : DungeonLevel) : DungeonLevel :=
  let d := forceEntranceLink d
  let d := d.set_entrance (d.rows - 1) (d.cols / 2)
  let d := forceExitLink d
  d.set_exit 0 (d.cols / 2)

/-- `int(difficulty + (rows - room.row) / rows)` of the populate pass,
computed exactly: the value equals the truncation of the rational
`(difficulty * rows + rows - row) / rows`. -/
def roomDifficultyInt (difficulty : Int) (rows row : Nat) : Int :=
  pyTrunc (difficulty * (rows : Int) + ((rows : Int) - (row : Int))) (rows : Int)

def componentTypes : List String := ["metal", "elemental", "catalyst", "binding", "rune"]

/-- One combat-room assignment of `populate_dungeon`. -/
def populateCombatStep (difficulty : Int) (rows : Nat) (d : DungeonLevel)
    (p : Nat × Nat) : DungeonLevel :=
  let room := d.rooms p.1 p.2
  let rd := roomDifficultyInt difficulty rows room.row
  let enc : PopEncounter :=
    { etype := "combat",
      enemies := [{ name := "Level " ++ toString rd ++ " Digital Construct",
                    hp := 5 + rd * 2,
                    attack := 1 + pyDiv rd 2,
                    defense := 10 + pyDiv rd 3 }],
      completed := false }
  d.updateRoom p (fun r => (r.set_room_type Room.COMBAT).add_encounter enc)

/-- One treasure-room assignment of `populate_dungeon` (consumes one
`random.choice` draw for the component type). -/
def populateTreasureStep (theme : String) (difficulty : Int) (rows : Nat)
    (s : DungeonLevel × Dice) (p : Nat × Nat) : DungeonLevel × Dice :=
  let (d, g) := s
  let room := d.rooms p.1 p.2
  let rd := roomDifficultyInt difficulty rows room.row
  let (component_type, g) := g.choice componentTypes ""
  let treasure : Treasure :=
    { ttype := "component", component_type := some component_type,
      name := pyCapitalize theme ++ " " ++ pyCapitalize component_type,
      value := 5 + rd * 2, found := false }
  (d.updateRoom p (fun r => (r.set_room_type Room.TREASURE).add_treasure treasure), g)

/-- One puzzle-room assignment of `populate_dungeon`. -/
def populatePuzzleStep (difficulty : Int) (rows : Nat) (d : DungeonLevel)
    (p : Nat × Nat) : DungeonLevel :=
  let room := d.rooms p.1 p.2
  let rd := roomDifficultyInt difficulty rows room.row
  let feature : Feature :=
    { ftype := "puzzle", name := "Neon Circuit Array",
      description := "A grid of glowing circuits that can be reconfigured to unlock a hidden cache.",
      difficulty := some rd, solved := some false }
  let treasure : Treasure :=
    { ttype := "item", name := "Digital Artifact",
      description := some "A rare item recovered from the puzzle.",
      value := 10 + rd * 3, found := false, requires_puzzle := some true }
  d.updateRoom p (fun r =>
    ((r.set_room_type Room.PUZZLE).add_feature feature).add_treasure treasure)

/-- One rest-area assignment of `populate_dungeon`. -/
def populateRestStep (difficulty : Int) (d : DungeonLevel) (p : Nat × Nat) :
    DungeonLevel :=
  let feature : Feature :=
    { ftype := "rest", name := "Data Stream Confluence",
      description := "A peaceful merging of data streams that offers rejuvenating properties.",
      heal_amount := some (1 + difficulty) }
  d.updateRoom p (fun r => (r.set_room_type Room.REST).add_feature feature)

/-- The available-rooms list of `populate_dungeon`: all rooms that are
neither the entrance nor the exit (object identity in the source;
positions here). -/
def availableRooms (d : DungeonLevel) : List (Nat × Nat) :=
  (List.range d.rows).flatMap (fun r =>
    (List.range d.cols).filterMap (fun c =>
      if d.entrance ≠ some (r, c) ∧ d.exit ≠ some (r, c) then some (r, c)
      else none))

/-- The four sequential assignment loops of `populate_dungeon`, applied to
the already-computed position groups. -/
def populateGroups (d : DungeonLevel) (theme : String) (difficulty : Int)
    (rows : Nat) (combatRooms treasureRooms puzzleRooms restRooms :
      List (Nat × Nat)) (g : Dice) : DungeonLevel × Dice :=
  let d := combatRooms.foldl (populateCombatStep difficulty rows) d
  let st := treasureRooms.foldl (populateTreasureStep theme difficulty rows) (d, g)
  let d := puzzleRooms.foldl (populatePuzzleStep difficulty rows) st.1
  let d := restRooms.foldl (populateRestStep difficulty) d
  (d, st.2)

/-- `DungeonGenerator.populate_dungeon`: type percentages over the shuffled
non-entrance/exit rooms, with per-type content. -/
def populate_dungeon (d : DungeonLevel) (theme : String) (difficulty : Int)
    (g : Dice) : DungeonLevel × Dice :=
  let rows := d.rows
  let num_rooms : Int := (d.rows : Int) * (d.cols : Int) - 2
  let num_combat := pyTrunc (num_rooms * 4) 10
  let num_treasure := pyTrunc (num_rooms * 2) 10
  let num_puzzle := pyTrunc (num_rooms * 1) 10
  let num_rest := pyTrunc (num_rooms * 1) 10
  let sh := shuffle (0, 0) (availableRooms d) g
  let shuffled := sh.1
  let g := sh.2
  let nCombat := (min num_combat (shuffled.length : Int)).toNat
  let combatRooms := shuffled.take nCombat
  let rest1 := shuffled.drop nCombat
  let nTreasure := (min num_treasure (rest1.length : Int)).toNat
  let treasureRooms := rest1.take nTreasure
  let rest2 := rest1.drop nTreasure
  let nPuzzle := (min num_puzzle (rest2.length : Int)).toNat
  let puzzleRooms := rest2.take nPuzzle
  let rest3 := rest2.drop nPuzzle
  let nRest := (min num_rest (rest3.length : Int)).toNat
  let restRooms := rest3.take nRest
  populateGroups d theme difficulty rows combatRooms treasureRooms puzzleRooms
    restRooms g

/-- The theme-keyed adjective pools of `generate_descriptions` (default:
neon). -/
def themeAdjectives (theme : String) : List String :=
  if theme = "neon" then
    ["glowing", "pulsing", "vibrant", "luminous", "fluorescent", "iridescent", "radiant"]
  else if theme = "cyber" then
    ["digital", "electronic", "virtual", "cybernetic", "holographic", "synthetic", "artificial"]
  else if theme = "retro" then
    ["pixelated", "8-bit", "vintage", "classic", "old-school", "nostalgic", "retro-futuristic"]
  else
    ["glowing", "pulsing", "vibrant", "luminous", "fluorescent", "iridescent", "radiant"]

/-- One room of `generate_descriptions`: rooms that already have a
description are skipped; otherwise an adjective draw is consumed and a
type- or corridor-specific description is written. -/
def describeStep (adjectives : List String) (s : DungeonLevel × Dice)
    (p : Nat × Nat) : DungeonLevel × Dice :=
  let (d, g) := s
  let room := d.rooms p.1 p.2
  if room.description ≠ "" then (d, g)
  else
    let (adj, g) := g.choice adjectives ""
    let desc :=
      if room.room_type = some Room.COMBAT then
        "A " ++ adj ++ " chamber with hostile energy patterns forming in the air. Digital constructs begin to take shape as you enter."
      else if room.room_type = some Room.TREASURE then
        "A " ++ adj ++ " vault with data crystals embedded in the walls. Valuable resources appear to be stored here."
      else if room.room_type = some Room.PUZZLE then
        "A " ++ adj ++ " room with complex patterns on the floor and walls. A central mechanism appears to be waiting for input."
      else if room.room_type = some Room.REST then
        "A " ++ adj ++ " sanctuary with calm energy flows. The hostile code of the dungeon seems unable to penetrate this space."
      else
        let exits := room.get_link_directions
        let exit_str := String.intercalate ", " exits.dropLast ++
          (if exits ≠ [] then " and " ++ exits.getLastD "" else "")
        "A " ++ adj ++ " corridor with exits leading " ++ exit_str ++ "."
    (d.updateRoom p (fun r => { r with description := desc }), g)

/-- `DungeonGenerator.generate_descriptions`. -/
def generate_descriptions (d : DungeonLevel) (theme : String) (g : Dice) :
    DungeonLevel × Dice :=
  (gridPositions d.rows d.cols).foldl (describeStep (themeAdjectives theme)) (d, g)

/-- `random.seed(s)`: the global generator state after reseeding is a fixed
deterministic function of the seed alone (stand-in for the stdlib
Mersenne Twister initialisation). -/
def seedDice (s : Nat) : Dice :=
  ⟨fun i => (s + i + 1) * 2654435761 % 4294967296, 0⟩

/-- `if seed is not None: random.seed(seed)`: the generator state used by
the pipeline — reseeded when a seed is given, the incoming global state
otherwise. -/
def reseed (seed : Option Nat) (g : Dice) : Dice :=
  match seed with
  | some s => seedDice s
  | none => g

/-- `DungeonGenerator.generate_dungeon`: reseed if a seed is given, build
the empty grid, run the selected connectivity algorithm, place entrance
and exit, populate, and write descriptions.  `g` is the incoming global
generator state. -/
def generate_dungeon (rows cols : Nat) (algorithm : String) (level_num : Int)
    (theme : String) (difficulty : Int) (seed : Option Nat) (g : Dice) :
    DungeonLevel × Dice :=
  let g := reseed seed g
  let d := DungeonLevel.init rows cols level_num theme
  let sc :=
    if algorithm = "bsp" then connectivityPass 700 d g
    else if algorithm = "maze" then connectivityPass 500 d g
    else if algorithm = "cellular" then connectivityPass 600 d g
    else connectivityPass 700 d g
  let d := setEntranceExit sc.1
  let sp := populate_dungeon d theme difficulty sc.2
  generate_descriptions sp.1 theme sp.2

/-- C7: with a seed supplied, `generate_dungeon` reseeds the generator
before consuming any draw and consumes draws in a fixed order, so the
produced dungeon is a function of the parameters and the seed alone —
independent of the incoming generator state, two calls with identical
parameters and the same seed yield identical dungeons. -/
theorem c7_generate_dungeon_deterministic (rows cols : Nat) (algorithm : String)
    (level_num : Int) (theme : String) (difficulty : Int) (s : Nat)
    (g1 g2 : Dice) :
    (generate_dungeon rows cols algorithm level_num theme difficulty
      (some s) g1).1 =
    (generate_dungeon rows cols algorithm level_num theme difficulty
      (some s) g2).1 := by
  unfold generate_dungeon reseed
  dsimp only

/-- C3 counterexample: on a 1×1 "bsp" dungeon (rows = 1), the entrance and
the exit are the same room, that room's type is Exit (not Entrance), and
it has no links — refuting distinctness, the entrance's type, and the
at-least-one-link property for rows = 1. -/
theorem c3_counterexample :
    (let d := (generate_dungeon 1 1 "bsp" 1 "neon" 1 (some 0)
      ⟨fun _ => 0, 0⟩).1
     d.entrance = some (0, 0) ∧ d.exit = some (0, 0) ∧
     (d.rooms 0 0).room_type = some Room.EXIT ∧
     (d.rooms 0 0).links = 0 ∧ (d.rooms 0 0).get_links = []) := by
  set_option maxHeartbeats 2000000 in decide

/-! Preservation lemmas for the generation pipeline. -/

/-- The fields of a dungeon other than the room grid. -/
def metaOf (d : DungeonLevel) :
    Nat × Nat × Option (Nat × Nat) × Option (Nat × Nat) :=
  (d.rows, d.cols, d.entrance, d.exit)

theorem meta_eq_fields {d1 d2 : DungeonLevel} (h : metaOf d1 = metaOf d2) :
    d1.rows = d2.rows ∧ d1.cols = d2.cols ∧ d1.entrance = d2.entrance ∧
    d1.exit = d2.exit := by
  unfold metaOf at h
  simp only [Prod.mk.injEq] at h
  exact ⟨h.1, h.2.1, h.2.2.1, h.2.2.2⟩

theorem foldl_preserveDice {α β : Type} (proj : DungeonLevel → β)
    (step : (DungeonLevel × Dice) → α → (DungeonLevel × Dice)) :
    ∀ (l : List α), (∀ s a, a ∈ l → proj (step s a).1 = proj s.1) →
      ∀ s, proj ((l.foldl step s).1) = proj s.1
  | [], _, s => rfl
  | a :: as, hstep, s => by
    rw [List.foldl_cons]
    rw [foldl_preserveDice proj step as
      (fun s' b hb => hstep s' b (List.mem_cons_of_mem a hb)) (step s a)]
    exact hstep s a (List.mem_cons_self a as)

theorem foldl_preserveD {α β : Type} (proj : DungeonLevel → β)
    (step : DungeonLevel → α → DungeonLevel) :
    ∀ (l : List α), (∀ d a, a ∈ l → proj (step d a) = proj d) →
      ∀ d, proj (l.foldl step d) = proj d
  | [], _, d => rfl
  | a :: as, hstep, d => by
    rw [List.foldl_cons]
    rw [foldl_preserveD proj step as
      (fun d' b hb => hstep d' b (List.mem_cons_of_mem a hb)) (step d a)]
    exact hstep d a (List.mem_cons_self a as)

theorem updateRoom_metaOf (d : DungeonLevel) (pos : Nat × Nat) (f : Room → Room) :
    metaOf (d.updateRoom pos f) = metaOf d := rfl

theorem updateRoom_at_self (d : DungeonLevel) (pos : Nat × Nat) (f : Room → Room) :
    (d.updateRoom pos f).rooms pos.1 pos.2 = f (d.rooms pos.1 pos.2) := by
  unfold DungeonLevel.updateRoom
  dsimp only
  rw [if_pos ⟨rfl, rfl⟩]

theorem updateRoom_at_other (d : DungeonLevel) (pos q : Nat × Nat) (f : Room → Room)
    (h : ¬(q.1 = pos.1 ∧ q.2 = pos.2)) :
    (d.updateRoom pos f).rooms q.1 q.2 = d.rooms q.1 q.2 := by
  unfold DungeonLevel.updateRoom
  dsimp only
  rw [if_neg h]

theorem updateRoom_links (d : DungeonLevel) (pos : Nat × Nat) (f : Room → Room)
    (hf : ∀ r, (f r).links = r.links) (q : Nat × Nat) :
    ((d.updateRoom pos f).rooms q.1 q.2).links = (d.rooms q.1 q.2).links := by
  unfold DungeonLevel.updateRoom
  dsimp only
  split_ifs with h
  · exact hf _
  · rfl

theorem updateRoom_room_type (d : DungeonLevel) (pos : Nat × Nat) (f : Room → Room)
    (hf : ∀ r, (f r).room_type = r.room_type) (q : Nat × Nat) :
    ((d.updateRoom pos f).rooms q.1 q.2).room_type = (d.rooms q.1 q.2).room_type := by
  unfold DungeonLevel.updateRoom
  dsimp only
  split_ifs with h
  · exact hf _
  · rfl

theorem set_room_type_room_type (r : Room) (t : Nat) :
    (r.set_room_type t).room_type = some t := by
  unfold Room.set_room_type
  dsimp only
  split_ifs <;> rfl

theorem set_room_type_links (r : Room) (t : Nat) :
    (r.set_room_type t).links = r.links := by
  unfold Room.set_room_type
  dsimp only
  split_ifs <;> rfl

theorem get_links_congr (r1 r2 : Room) (h : r1.links = r2.links) :
    r1.get_links = r2.get_links := by
  unfold Room.get_links Room.linked
  rw [h]

theorem get_links_ne_nil_of_linked (r : Room) (dd : Nat)
    (hdd : dd = Room.NORTH ∨ dd = Room.SOUTH ∨ dd = Room.EAST ∨ dd = Room.WEST)
    (h : r.linked dd = true) : r.get_links ≠ [] := by
  intro hc
  unfold Room.get_links at hc
  rcases hdd with h' | h' | h' | h' <;> subst h' <;> simp [h] at hc

theorem link_rooms_metaOf (d : DungeonLevel) (pos : Nat × Nat) (dir : Nat) :
    metaOf ((d.link_rooms pos dir).2) = metaOf d := by
  unfold DungeonLevel.link_rooms
  cases d.get_adjacent_pos pos dir <;> rfl

theorem link_rooms_room_type (d : DungeonLevel) (pos : Nat × Nat) (dir : Nat)
    (q : Nat × Nat) :
    ((((d.link_rooms pos dir).2).rooms q.1 q.2)).room_type =
      (d.rooms q.1 q.2).room_type := by
  unfold DungeonLevel.link_rooms
  cases d.get_adjacent_pos pos dir with
  | none => rfl
  | some pos2 =>
    dsimp only
    rw [updateRoom_room_type _ pos2 (fun r => r.link (Room.OPPOSITE dir))
          (fun r => rfl) q,
        updateRoom_room_type d pos (fun r => r.link dir) (fun r => rfl) q]

theorem link_rooms_get_links_ne (d : DungeonLevel) (pos : Nat × Nat) (dir : Nat)
    (q : Nat × Nat) (h : (d.rooms q.1 q.2).get_links ≠ []) :
    ((((d.link_rooms pos dir).2).rooms q.1 q.2)).get_links ≠ [] := by
  unfold DungeonLevel.link_rooms
  cases d.get_adjacent_pos pos dir with
  | none => exact h
  | some pos2 =>
    dsimp only
    unfold DungeonLevel.updateRoom
    dsimp only
    split_ifs with h1 h2 h2
    · exact get_links_mono _ _ (get_links_mono _ _ h)
    · exact get_links_mono _ _ h
    · exact get_links_mono _ _ h
    · exact h

theorem link_rooms_linked_self (d : DungeonLevel) (pos : Nat × Nat) (dir : Nat)
    (pos2 : Nat × Nat) (hadj : d.get_adjacent_pos pos dir = some pos2)
    (hd : dir ≠ 0) :
    (((d.link_rooms pos dir).2).rooms pos.1 pos.2).linked dir = true := by
  unfold DungeonLevel.link_rooms
  rw [hadj]
  dsimp only
  unfold DungeonLevel.updateRoom
  dsimp only
  by_cases hpp : pos.1 = pos2.1 ∧ pos.2 = pos2.2
  · simp only [hpp, and_self, if_true, if_pos (And.intro rfl rfl)]
    exact linked_mono _ _ _ (linked_link_self _ _ hd)
  · simp only [if_neg hpp, if_pos (And.intro rfl rfl)]
    exact linked_link_self _ _ hd

theorem adj_entrance_north (d : DungeonLevel) (h2 : 2 ≤ d.rows) (h1 : 1 ≤ d.cols) :
    d.get_adjacent_pos (d.rows - 1, d.cols / 2) Room.NORTH =
      some (d.rows - 2, d.cols / 2) := by
  have hc : d.cols / 2 < d.cols := Nat.div_lt_self (by omega) (by omega)
  have hoff : DungeonLevel.offsetOf Room.NORTH = (-1, 0) := rfl
  unfold DungeonLevel.get_adjacent_pos
  dsimp only
  rw [hoff]
  dsimp only
  rw [if_pos]
  · simp only [Option.some.injEq, Prod.mk.injEq]
    constructor <;> omega
  · unfold DungeonLevel.is_valid
    simp only [decide_eq_true_eq]
    refine ⟨by omega, by omega, by omega, by omega⟩

theorem adj_exit_south (d : DungeonLevel) (h2 : 2 ≤ d.rows) (h1 : 1 ≤ d.cols) :
    d.get_adjacent_pos (0, d.cols / 2) Room.SOUTH = some (1, d.cols / 2) := by
  have hc : d.cols / 2 < d.cols := Nat.div_lt_self (by omega) (by omega)
  have hoff : DungeonLevel.offsetOf Room.SOUTH = (1, 0) := rfl
  unfold DungeonLevel.get_adjacent_pos
  dsimp only
  rw [hoff]
  dsimp only
  rw [if_pos]
  · simp only [Option.some.injEq, Prod.mk.injEq]
    constructor <;> omega
  · unfold DungeonLevel.is_valid
    simp only [decide_eq_true_eq]
    refine ⟨by omega, by omega, by omega, by omega⟩

theorem forceEntranceLink_spec (d : DungeonLevel) (h2 : 2 ≤ d.rows)
    (h1 : 1 ≤ d.cols) :
    metaOf (forceEntranceLink d) = metaOf d ∧
    ((forceEntranceLink d).rooms (d.rows - 1) (d.cols / 2)).get_links ≠ [] ∧
    (∀ q : Nat × Nat, ((forceEntranceLink d).rooms q.1 q.2).room_type =
      (d.rooms q.1 q.2).room_type) := by
  unfold forceEntranceLink
  dsimp only
  split_ifs with hE hrow
  · refine ⟨link_rooms_metaOf _ _ _, ?_, fun q => link_rooms_room_type _ _ _ q⟩
    have hadj := adj_entrance_north d h2 h1
    have hlink := link_rooms_linked_self d (d.rows - 1, d.cols / 2) Room.NORTH _
      hadj (by decide)
    exact get_links_ne_nil_of_linked _ Room.NORTH (Or.inl rfl) hlink
  · exact (hrow (by omega)).elim
  · exact ⟨rfl, hE, fun q => rfl⟩

theorem forceExitLink_spec (d : DungeonLevel) (h2 : 2 ≤ d.rows)
    (h1 : 1 ≤ d.cols) :
    metaOf (forceExitLink d) = metaOf d ∧
    ((forceExitLink d).rooms 0 (d.cols / 2)).get_links ≠ [] ∧
    (∀ q : Nat × Nat, ((forceExitLink d).rooms q.1 q.2).room_type =
      (d.rooms q.1 q.2).room_type) ∧
    (∀ q : Nat × Nat, (d.rooms q.1 q.2).get_links ≠ [] →
      ((forceExitLink d).rooms q.1 q.2).get_links ≠ []) := by
  unfold forceExitLink
  dsimp only
  split_ifs with hX hrow
  · refine ⟨link_rooms_metaOf _ _ _, ?_, fun q => link_rooms_room_type _ _ _ q,
      fun q hq => link_rooms_get_links_ne _ _ _ q hq⟩
    have hadj := adj_exit_south d h2 h1
    have hlink := link_rooms_linked_self d (0, d.cols / 2) Room.SOUTH _
      hadj (by decide)
    exact get_links_ne_nil_of_linked _ Room.SOUTH (Or.inr (Or.inl rfl)) hlink
  · exact (hrow (by omega)).elim
  · exact ⟨rfl, hX, fun q => rfl, fun q hq => hq⟩

theorem set_entrance_spec (d : DungeonLevel) (row col : Nat) :
    (d.set_entrance row col).rows = d.rows ∧
    (d.set_entrance row col).cols = d.cols ∧
    (d.set_entrance row col).entrance = some (row, col) ∧
    (d.set_entrance row col).exit = d.exit ∧
    ((d.set_entrance row col).rooms row col).room_type = some Room.ENTRANCE ∧
    (∀ q : Nat × Nat, ((d.set_entrance row col).rooms q.1 q.2).links =
      (d.rooms q.1 q.2).links) ∧
    (∀ q : Nat × Nat, ¬(q.1 = row ∧ q.2 = col) →
      (d.set_entrance row col).rooms q.1 q.2 = d.rooms q.1 q.2) := by
  unfold DungeonLevel.set_entrance
  dsimp only
  refine ⟨rfl, rfl, rfl, rfl, ?_, ?_, ?_⟩
  · rw [updateRoom_at_self d (row, col) (fun r => r.set_room_type Room.ENTRANCE)]
    exact set_room_type_room_type _ _
  · exact fun q => updateRoom_links d (row, col) _
      (fun r => set_room_type_links r _) q
  · exact fun q hq => updateRoom_at_other d (row, col) q _ hq

theorem set_exit_spec (d : DungeonLevel) (row col : Nat) :
    (d.set_exit row col).rows = d.rows ∧
    (d.set_exit row col).cols = d.cols ∧
    (d.set_exit row col).entrance = d.entrance ∧
    (d.set_exit row col).exit = some (row, col) ∧
    ((d.set_exit row col).rooms row col).room_type = some Room.EXIT ∧
    (∀ q : Nat × Nat, ((d.set_exit row col).rooms q.1 q.2).links =
      (d.rooms q.1 q.2).links) ∧
    (∀ q : Nat × Nat, ¬(q.1 = row ∧ q.2 = col) →
      (d.set_exit row col).rooms q.1 q.2 = d.rooms q.1 q.2) := by
  unfold DungeonLevel.set_exit
  dsimp only
  refine ⟨rfl, rfl, rfl, rfl, ?_, ?_, ?_⟩
  · rw [updateRoom_at_self d (row, col) (fun r => r.set_room_type Room.EXIT)]
    exact set_room_type_room_type _ _
  · exact fun q => updateRoom_links d (row, col) _
      (fun r => set_room_type_links r _) q
  · exact fun q hq => updateRoom_at_other d (row, col) q _ hq

theorem setEntranceExit_spec (d : DungeonLevel) (h2 : 2 ≤ d.rows)
    (h1 : 1 ≤ d.cols) :
    (setEntranceExit d).rows = d.rows ∧
    (setEntranceExit d).cols = d.cols ∧
    (setEntranceExit d).entrance = some (d.rows - 1, d.cols / 2) ∧
    (setEntranceExit d).exit = some (0, d.cols / 2) ∧
    ((setEntranceExit d).rooms (d.rows - 1) (d.cols / 2)).room_type =
      some Room.ENTRANCE ∧
    ((setEntranceExit d).rooms 0 (d.cols / 2)).room_type = some Room.EXIT ∧
    ((setEntranceExit d).rooms (d.rows - 1) (d.cols / 2)).get_links ≠ [] ∧
    ((setEntranceExit d).rooms 0 (d.cols / 2)).get_links ≠ [] := by
  obtain ⟨hm1, hE1, ht1⟩ := forceEntranceLink_spec d h2 h1
  obtain ⟨hr1, hc1, _, _⟩ := meta_eq_fields hm1
  set d1 := forceEntranceLink d with hd1
  obtain ⟨hr2, hc2, hen2, hex2, htype2, hlinks2, hother2⟩ :=
    set_entrance_spec d1 (d1.rows - 1) (d1.cols / 2)
  set d2 := d1.set_entrance (d1.rows - 1) (d1.cols / 2) with hd2
  have h2' : 2 ≤ d2.rows := by rw [hr2, hr1]; exact h2
  have h1' : 1 ≤ d2.cols := by rw [hc2, hc1]; exact h1
  obtain ⟨hm3, hX3, ht3, hpres3⟩ := forceExitLink_spec d2 h2' h1'
  obtain ⟨hr3, hc3, hen3, _⟩ := meta_eq_fields hm3
  set d3 := forceExitLink d2 with hd3
  obtain ⟨hr4, hc4, hen4, hex4, htype4, hlinks4, hother4⟩ :=
    set_exit_spec d3 0 (d3.cols / 2)
  have hfin : setEntranceExit d = d3.set_exit 0 (d3.cols / 2) := by
    rw [setEntranceExit]
  have hrowpos : d.rows - 1 ≠ 0 := by omega
  have hpe1 : d1.rows - 1 = d.rows - 1 := by rw [hr1]
  have hpe2 : d1.cols / 2 = d.cols / 2 := by rw [hc1]
  have hcol3 : d3.cols / 2 = d.cols / 2 := by rw [hc3, hc2, hc1]
  -- the entrance position differs from the exit position
  have hneq : ¬((d.rows - 1 : Nat) = 0 ∧ (d.cols / 2 : Nat) = d.cols / 2) := by
    intro hcon
    exact hrowpos hcon.1
  have hneq' : ¬((0 : Nat) = d.rows - 1 ∧ (d.cols / 2 : Nat) = d.cols / 2) := by
    intro hcon
    exact hrowpos hcon.1.symm
  rw [hfin]
  refine ⟨?_, ?_, ?_, ?_, ?_, ?_, ?_, ?_⟩
  · rw [hr4, hr3, hr2, hr1]
  · rw [hc4, hc3, hc2, hc1]
  · rw [hen4, hen3, hen2, hpe1, hpe2]
  · rw [hex4, hcol3]
  · -- entrance room type
    have hne : ¬(((d.rows - 1 : Nat), (d.cols / 2 : Nat)).1 = 0 ∧
        ((d.rows - 1 : Nat), (d.cols / 2 : Nat)).2 = d3.cols / 2) := by
      intro hcon
      exact hrowpos hcon.1
    rw [hother4 (d.rows - 1, d.cols / 2) hne]
    rw [ht3 (d.rows - 1, d.cols / 2)]
    have := htype2
    rw [hpe1, hpe2] at this
    exact this
  · -- exit room type
    rw [← hcol3]
    exact htype4
  · -- entrance links nonempty
    have hne : ¬(((d.rows - 1 : Nat), (d.cols / 2 : Nat)).1 = 0 ∧
        ((d.rows - 1 : Nat), (d.cols / 2 : Nat)).2 = d3.cols / 2) := by
      intro hcon
      exact hrowpos hcon.1
    rw [hother4 (d.rows - 1, d.cols / 2) hne]
    apply hpres3 (d.rows - 1, d.cols / 2)
    have hl2 := hlinks2 (d.rows - 1, d.cols / 2)
    have : (d2.rooms (d.rows - 1) (d.cols / 2)).get_links =
        (d1.rooms (d.rows - 1) (d.cols / 2)).get_links :=
      get_links_congr _ _ hl2
    rw [this]
    exact hE1
  · -- exit links nonempty
    rw [← hcol3]
    have hcongr := get_links_congr
      ((d3.set_exit 0 (d3.cols / 2)).rooms 0 (d3.cols / 2))
      (d3.rooms 0 (d3.cols / 2)) (hlinks4 (0, d3.cols / 2))
    rw [hcongr]
    have hcc : d3.cols / 2 = d2.cols / 2 := by rw [hc3]
    rw [hcc]
    exact hX3

theorem availableRooms_ne (d : DungeonLevel) (x : Nat × Nat)
    (hx : x ∈ availableRooms d) : d.entrance ≠ some x ∧ d.exit ≠ some x := by
  unfold availableRooms at hx
  simp only [List.mem_flatMap, List.mem_filterMap, List.mem_range] at hx
  obtain ⟨r, hr, c, hc, hcond⟩ := hx
  split_ifs at hcond with h
  · obtain ⟨h1, h2⟩ := h
    injection hcond with hx'
    subst hx'
    exact ⟨h1, h2⟩

theorem linkStep_metaOf (milli rows cols : Nat) (s : DungeonLevel × Dice)
    (p : Nat × Nat) : metaOf (linkStep milli rows cols s p).1 = metaOf s.1 := by
  obtain ⟨d, g⟩ := s
  unfold linkStep
  dsimp only [Dice.randLt, Dice.next]
  split_ifs <;> simp only [link_rooms_metaOf]

theorem connectivityPass_metaOf (milli : Nat) (d : DungeonLevel) (g : Dice) :
    metaOf (connectivityPass milli d g).1 = metaOf d :=
  foldl_preserveDice metaOf (linkStep milli d.rows d.cols)
    (gridPositions d.rows d.cols)
    (fun s a _ => linkStep_metaOf milli d.rows d.cols s a) (d, g)

theorem populateCombatStep_metaOf (difficulty : Int) (rows : Nat)
    (d : DungeonLevel) (p : Nat × Nat) :
    metaOf (populateCombatStep difficulty rows d p) = metaOf d := rfl

theorem populateTreasureStep_metaOf (theme : String) (difficulty : Int)
    (rows : Nat) (s : DungeonLevel × Dice) (p : Nat × Nat) :
    metaOf (populateTreasureStep theme difficulty rows s p).1 = metaOf s.1 := by
  obtain ⟨d, g⟩ := s
  rfl

theorem populatePuzzleStep_metaOf (difficulty : Int) (rows : Nat)
    (d : DungeonLevel) (p : Nat × Nat) :
    metaOf (populatePuzzleStep difficulty rows d p) = metaOf d := rfl

theorem populateRestStep_metaOf (difficulty : Int) (d : DungeonLevel)
    (p : Nat × Nat) :
    metaOf (populateRestStep difficulty d p) = metaOf d := rfl

theorem populateCombatStep_at_other (difficulty : Int) (rows : Nat)
    (d : DungeonLevel) (p q : Nat × Nat) (h : q ≠ p) :
    (populateCombatStep difficulty rows d p).rooms q.1 q.2 = d.rooms q.1 q.2 := by
  unfold populateCombatStep
  dsimp only
  exact updateRoom_at_other d p q _ (fun hc => h (Prod.ext hc.1 hc.2))

theorem populateTreasureStep_at_other (theme : String) (difficulty : Int)
    (rows : Nat) (s : DungeonLevel × Dice) (p q : Nat × Nat) (h : q ≠ p) :
    (populateTreasureStep theme difficulty rows s p).1.rooms q.1 q.2 =
      s.1.rooms q.1 q.2 := by
  obtain ⟨d, g⟩ := s
  unfold populateTreasureStep
  dsimp only [Dice.choice, Dice.next]
  exact updateRoom_at_other d p q _ (fun hc => h (Prod.ext hc.1 hc.2))

theorem populatePuzzleStep_at_other (difficulty : Int) (rows : Nat)
    (d : DungeonLevel) (p q : Nat × Nat) (h : q ≠ p) :
    (populatePuzzleStep difficulty rows d p).rooms q.1 q.2 = d.rooms q.1 q.2 := by
  unfold populatePuzzleStep
  dsimp only
  exact updateRoom_at_other d p q _ (fun hc => h (Prod.ext hc.1 hc.2))

theorem populateRestStep_at_other (difficulty : Int) (d : DungeonLevel)
    (p q : Nat × Nat) (h : q ≠ p) :
    (populateRestStep difficulty d p).rooms q.1 q.2 = d.rooms q.1 q.2 := by
  unfold populateRestStep
  dsimp only
  exact updateRoom_at_other d p q _ (fun hc => h (Prod.ext hc.1 hc.2))


theorem populateGroups_preserves (theme : String) (difficulty : Int) (rows : Nat)
    (cr tr pr rr : List (Nat × Nat)) (d : DungeonLevel) (g : Dice)
    (q : Nat × Nat)
    (hcr : ∀ x ∈ cr, x ≠ q) (htr : ∀ x ∈ tr, x ≠ q)
    (hpr : ∀ x ∈ pr, x ≠ q) (hrr : ∀ x ∈ rr, x ≠ q) :
    metaOf (populateGroups d theme difficulty rows cr tr pr rr g).1 = metaOf d ∧
    (populateGroups d theme difficulty rows cr tr pr rr g).1.rooms q.1 q.2 =
      d.rooms q.1 q.2 := by
  unfold populateGroups
  dsimp only
  constructor
  · rw [foldl_preserveD metaOf (populateRestStep difficulty) rr
      (fun d' a _ => populateRestStep_metaOf difficulty d' a)]
    rw [foldl_preserveD metaOf (populatePuzzleStep difficulty rows) pr
      (fun d' a _ => populatePuzzleStep_metaOf difficulty rows d' a)]
    rw [foldl_preserveDice metaOf (populateTreasureStep theme difficulty rows) tr
      (fun s a _ => populateTreasureStep_metaOf theme difficulty rows s a)]
    exact foldl_preserveD metaOf (populateCombatStep difficulty rows) cr
      (fun d' a _ => populateCombatStep_metaOf difficulty rows d' a) d
  · rw [foldl_preserveD (fun dd => dd.rooms q.1 q.2) (populateRestStep difficulty)
      rr (fun d' a ha => populateRestStep_at_other difficulty d' a q
        (Ne.symm (hrr a ha)))]
    rw [foldl_preserveD (fun dd => dd.rooms q.1 q.2)
      (populatePuzzleStep difficulty rows) pr
      (fun d' a ha => populatePuzzleStep_at_other difficulty rows d' a q
        (Ne.symm (hpr a ha)))]
    rw [foldl_preserveDice (fun dd => dd.rooms q.1 q.2)
      (populateTreasureStep theme difficulty rows) tr
      (fun s a ha => populateTreasureStep_at_other theme difficulty rows s a q
        (Ne.symm (htr a ha)))]
    exact foldl_preserveD (fun dd => dd.rooms q.1 q.2)
      (populateCombatStep difficulty rows) cr
      (fun d' a ha => populateCombatStep_at_other difficulty rows d' a q
        (Ne.symm (hcr a ha))) d

theorem populate_preserves (d : DungeonLevel) (theme : String) (difficulty : Int)
    (g : Dice) (q : Nat × Nat)
    (hq : d.entrance = some q ∨ d.exit = some q) :
    metaOf (populate_dungeon d theme difficulty g).1 = metaOf d ∧
    (populate_dungeon d theme difficulty g).1.rooms q.1 q.2 =
      d.rooms q.1 q.2 := by
  have hne : ∀ x ∈ (shuffle ((0, 0) : Nat × Nat) (availableRooms d) g).1,
      x ≠ q := by
    intro x hxm hc
    subst hc
    have hav := availableRooms_ne d x (shuffle_mem _ _ _ _ hxm)
    rcases hq with h | h
    · exact hav.1 h
    · exact hav.2 h
  unfold populate_dungeon
  dsimp only
  apply populateGroups_preserves
  · exact fun x hx => hne x (List.take_subset _ _ hx)
  · exact fun x hx => hne x (List.drop_subset _ _ (List.take_subset _ _ hx))
  · exact fun x hx => hne x
      (List.drop_subset _ _ (List.drop_subset _ _ (List.take_subset _ _ hx)))
  · exact fun x hx => hne x
      (List.drop_subset _ _ (List.drop_subset _ _
        (List.drop_subset _ _ (List.take_subset _ _ hx))))

theorem describeStep_metaOf (adjectives : List String) (s : DungeonLevel × Dice)
    (p : Nat × Nat) : metaOf (describeStep adjectives s p).1 = metaOf s.1 := by
  obtain ⟨d, g⟩ := s
  unfold describeStep
  dsimp only [Dice.choice, Dice.next]
  split_ifs <;> rfl

theorem describeStep_room_type (adjectives : List String)
    (s : DungeonLevel × Dice) (p q : Nat × Nat) :
    ((describeStep adjectives s p).1.rooms q.1 q.2).room_type =
      (s.1.rooms q.1 q.2).room_type := by
  obtain ⟨d, g⟩ := s
  unfold describeStep
  dsimp only [Dice.choice, Dice.next]
  split_ifs <;> dsimp only <;>
    first
      | rfl
      | (apply updateRoom_room_type
         intro r
         rfl)

theorem describeStep_links (adjectives : List String) (s : DungeonLevel × Dice)
    (p q : Nat × Nat) :
    ((describeStep adjectives s p).1.rooms q.1 q.2).links =
      (s.1.rooms q.1 q.2).links := by
  obtain ⟨d, g⟩ := s
  unfold describeStep
  dsimp only [Dice.choice, Dice.next]
  split_ifs <;> dsimp only <;>
    first
      | rfl
      | (apply updateRoom_links
         intro r
         rfl)

theorem descriptions_preserve (d : DungeonLevel) (theme : String) (g : Dice)
    (q : Nat × Nat) :
    metaOf (generate_descriptions d theme g).1 = metaOf d ∧
    ((generate_descriptions d theme g).1.rooms q.1 q.2).room_type =
      (d.rooms q.1 q.2).room_type ∧
    ((generate_descriptions d theme g).1.rooms q.1 q.2).links =
      (d.rooms q.1 q.2).links := by
  unfold generate_descriptions
  refine ⟨?_, ?_, ?_⟩
  · exact foldl_preserveDice metaOf (describeStep (themeAdjectives theme))
      (gridPositions d.rows d.cols)
      (fun s a _ => describeStep_metaOf (themeAdjectives theme) s a) (d, g)
  · exact foldl_preserveDice (fun dd => (dd.rooms q.1 q.2).room_type)
      (describeStep (themeAdjectives theme)) (gridPositions d.rows d.cols)
      (fun s a _ => describeStep_room_type (themeAdjectives theme) s a q) (d, g)
  · exact foldl_preserveDice (fun dd => (dd.rooms q.1 q.2).links)
      (describeStep (themeAdjectives theme)) (gridPositions d.rows d.cols)
      (fun s a _ => describeStep_links (themeAdjectives theme) s a q) (d, g)

theorem c3_aux (dc : DungeonLevel) (theme : String) (difficulty : Int)
    (g : Dice) (h2 : 2 ≤ dc.rows) (h1 : 1 ≤ dc.cols) :
    (generate_descriptions
        (populate_dungeon (setEntranceExit dc) theme difficulty g).1 theme
        (populate_dungeon (setEntranceExit dc) theme difficulty g).2).1.entrance =
      some (dc.rows - 1, dc.cols / 2) ∧
    (generate_descriptions
        (populate_dungeon (setEntranceExit dc) theme difficulty g).1 theme
        (populate_dungeon (setEntranceExit dc) theme difficulty g).2).1.exit =
      some (0, dc.cols / 2) ∧
    ((generate_descriptions
        (populate_dungeon (setEntranceExit dc) theme difficulty g).1 theme
        (populate_dungeon (setEntranceExit dc) theme difficulty g).2).1.rooms
      (dc.rows - 1) (dc.cols / 2)).room_type = some Room.ENTRANCE ∧
    ((generate_descriptions
        (populate_dungeon (setEntranceExit dc) theme difficulty g).1 theme
        (populate_dungeon (setEntranceExit dc) theme difficulty g).2).1.rooms
      0 (dc.cols / 2)).room_type = some Room.EXIT ∧
    ((generate_descriptions
        (populate_dungeon (setEntranceExit dc) theme difficulty g).1 theme
        (populate_dungeon (setEntranceExit dc) theme difficulty g).2).1.rooms
      (dc.rows - 1) (dc.cols / 2)).get_links ≠ [] ∧
    ((generate_descriptions
        (populate_dungeon (setEntranceExit dc) theme difficulty g).1 theme
        (populate_dungeon (setEntranceExit dc) theme difficulty g).2).1.rooms
      0 (dc.cols / 2)).get_links ≠ [] := by
  obtain ⟨hr1, hc1, hen1, hex1, htE, htX, hlE, hlX⟩ :=
    setEntranceExit_spec dc h2 h1
  obtain ⟨hm2, hroomE⟩ := populate_preserves (setEntranceExit dc) theme
    difficulty g (dc.rows - 1, dc.cols / 2) (Or.inl (by rw [hen1]))
  obtain ⟨_, hroomX⟩ := populate_preserves (setEntranceExit dc) theme
    difficulty g (0, dc.cols / 2) (Or.inr (by rw [hex1]))
  obtain ⟨h2r, h2c, h2en, h2ex⟩ := meta_eq_fields hm2
  obtain ⟨hm3, ht3E, hl3E⟩ := descriptions_preserve
    (populate_dungeon (setEntranceExit dc) theme difficulty g).1 theme
    (populate_dungeon (setEntranceExit dc) theme difficulty g).2
    (dc.rows - 1, dc.cols / 2)
  obtain ⟨_, ht3X, hl3X⟩ := descriptions_preserve
    (populate_dungeon (setEntranceExit dc) theme difficulty g).1 theme
    (populate_dungeon (setEntranceExit dc) theme difficulty g).2
    (0, dc.cols / 2)
  obtain ⟨h3r, h3c, h3en, h3ex⟩ := meta_eq_fields hm3
  refine ⟨?_, ?_, ?_, ?_, ?_, ?_⟩
  · rw [h3en, h2en, hen1]
  · rw [h3ex, h2ex, hex1]
  · rw [ht3E, congrArg Room.room_type hroomE]
    exact htE
  · rw [ht3X, congrArg Room.room_type hroomX]
    exact htX
  · have hgl := get_links_congr _ _ hl3E
    rw [hgl, get_links_congr _ _ (congrArg Room.links hroomE)]
    exact hlE
  · have hgl := get_links_congr _ _ hl3X
    rw [hgl, get_links_congr _ _ (congrArg Room.links hroomX)]
    exact hlX

/-- C3 (amended): for every generated dungeon with at least two rows (and at
least one column) — any algorithm, seed, difficulty, theme and incoming
generator state — the entrance is the bottom-row centre and the exit the
top-row centre, the two are distinct rooms, their types are Entrance and
Exit, and each has at least one link.  (The original claim also asserted
this for rows = 1, where the entrance and exit coincide, the shared room
keeps type Exit and a 1×1 grid has no links; see the counterexample.) -/
theorem c3_entrance_exit_amended (rows cols : Nat) (algorithm : String)
    (level_num : Int) (theme : String) (difficulty : Int) (seed : Option Nat)
    (g : Dice) (h2 : 2 ≤ rows) (h1 : 1 ≤ cols) :
    (generate_dungeon rows cols algorithm level_num theme difficulty seed
      g).1.entrance = some (rows - 1, cols / 2) ∧
    (generate_dungeon rows cols algorithm level_num theme difficulty seed
      g).1.exit = some (0, cols / 2) ∧
    ((rows - 1, cols / 2) : Nat × Nat) ≠ (0, cols / 2) ∧
    ((generate_dungeon rows cols algorithm level_num theme difficulty seed
      g).1.rooms (rows - 1) (cols / 2)).room_type = some Room.ENTRANCE ∧
    ((generate_dungeon rows cols algorithm level_num theme difficulty seed
      g).1.rooms 0 (cols / 2)).room_type = some Room.EXIT ∧
    ((generate_dungeon rows cols algorithm level_num theme difficulty seed
      g).1.rooms (rows - 1) (cols / 2)).get_links ≠ [] ∧
    ((generate_dungeon rows cols algorithm level_num theme difficulty seed
      g).1.rooms 0 (cols / 2)).get_links ≠ [] := by
  have hdist : ((rows - 1, cols / 2) : Nat × Nat) ≠ (0, cols / 2) := by
    intro hcon
    have := congrArg Prod.fst hcon
    simp only at this
    omega
  unfold generate_dungeon
  dsimp only
  split_ifs
  case _ =>
    have hmc := meta_eq_fields (connectivityPass_metaOf 700
      (DungeonLevel.init rows cols level_num theme) (reseed seed g))
    have hmcr : (connectivityPass 700
        (DungeonLevel.init rows cols level_num theme) (reseed seed g)).1.rows =
        rows := hmc.1
    have hmcc : (connectivityPass 700
        (DungeonLevel.init rows cols level_num theme) (reseed seed g)).1.cols =
        cols := hmc.2.1
    have haux := c3_aux (connectivityPass 700
        (DungeonLevel.init rows cols level_num theme) (reseed seed g)).1
      theme difficulty (connectivityPass 700
        (DungeonLevel.init rows cols level_num theme) (reseed seed g)).2
      (by rw [hmcr]; exact h2) (by rw [hmcc]; exact h1)
    rw [hmcr, hmcc] at haux
    exact ⟨haux.1, haux.2.1, hdist, haux.2.2⟩
  case _ =>
    have hmc := meta_eq_fields (connectivityPass_metaOf 500
      (DungeonLevel.init rows cols level_num theme) (reseed seed g))
    have hmcr : (connectivityPass 500
        (DungeonLevel.init rows cols level_num theme) (reseed seed g)).1.rows =
        rows := hmc.1
    have hmcc : (connectivityPass 500
        (DungeonLevel.init rows cols level_num theme) (reseed seed g)).1.cols =
        cols := hmc.2.1
    have haux := c3_aux (connectivityPass 500
        (DungeonLevel.init rows cols level_num theme) (reseed seed g)).1
      theme difficulty (connectivityPass 500
        (DungeonLevel.init rows cols level_num theme) (reseed seed g)).2
      (by rw [hmcr]; exact h2) (by rw [hmcc]; exact h1)
    rw [hmcr, hmcc] at haux
    exact ⟨haux.1, haux.2.1, hdist, haux.2.2⟩
  case _ =>
    have hmc := meta_eq_fields (connectivityPass_metaOf 600
      (DungeonLevel.init rows cols level_num theme) (reseed seed g))
    have hmcr : (connectivityPass 600
        (DungeonLevel.init rows cols level_num theme) (reseed seed g)).1.rows =
        rows := hmc.1
    have hmcc : (connectivityPass 600
        (DungeonLevel.init rows cols level_num theme) (reseed seed g)).1.cols =
        cols := hmc.2.1
    have haux := c3_aux (connectivityPass 600
        (DungeonLevel.init rows cols level_num theme) (reseed seed g)).1
      theme difficulty (connectivityPass 600
        (DungeonLevel.init rows cols level_num theme) (reseed seed g)).2
      (by rw [hmcr]; exact h2) (by rw [hmcc]; exact h1)
    rw [hmcr, hmcc] at haux
    exact ⟨haux.1, haux.2.1, hdist, haux.2.2⟩
  case _ =>
    have hmc := meta_eq_fields (connectivityPass_metaOf 700
      (DungeonLevel.init rows cols level_num theme) (reseed seed g))
    have hmcr : (connectivityPass 700
        (DungeonLevel.init rows cols level_num theme) (reseed seed g)).1.rows =
        rows := hmc.1
    have hmcc : (connectivityPass 700
        (DungeonLevel.init rows cols level_num theme) (reseed seed g)).1.cols =
        cols := hmc.2.1
    have haux := c3_aux (connectivityPass 700
        (DungeonLevel.init rows cols level_num theme) (reseed seed g)).1
      theme difficulty (connectivityPass 700
        (DungeonLevel.init rows cols level_num theme) (reseed seed g)).2
      (by rw [hmcr]; exact h2) (by rw [hmcc]; exact h1)
    rw [hmcr, hmcc] at haux
    exact ⟨haux.1, haux.2.1, hdist, haux.2.2⟩

/-- C3 witness: a concrete 2×1 "bsp" dungeon satisfies the amended
invariant. -/
theorem c3_entrance_exit_amended_witness :
    (generate_dungeon 2 1 "bsp" 1 "neon" 1 (some 0)
      ⟨fun _ => 0, 0⟩).1.entrance = some (1, 0) ∧
    (generate_dungeon 2 1 "bsp" 1 "neon" 1 (some 0)
      ⟨fun _ => 0, 0⟩).1.exit = some (0, 0) ∧
    ((1, 0) : Nat × Nat) ≠ (0, 0) ∧
    ((generate_dungeon 2 1 "bsp" 1 "neon" 1 (some 0)
      ⟨fun _ => 0, 0⟩).1.rooms 1 0).room_type = some Room.ENTRANCE ∧
    ((generate_dungeon 2 1 "bsp" 1 "neon" 1 (some 0)
      ⟨fun _ => 0, 0⟩).1.rooms 0 0).room_type = some Room.EXIT ∧
    ((generate_dungeon 2 1 "bsp" 1 "neon" 1 (some 0)
      ⟨fun _ => 0, 0⟩).1.rooms 1 0).get_links ≠ [] ∧
    ((generate_dungeon 2 1 "bsp" 1 "neon" 1 (some 0)
      ⟨fun _ => 0, 0⟩).1.rooms 0 0).get_links ≠ [] :=
  c3_entrance_exit_amended 2 1 "bsp" 1 "neon" 1 (some 0) ⟨fun _ => 0, 0⟩
    (by decide) (by decide)

/-! ## Combat model (models/combat.py, the static pure-state engine) -/

inductive PType
  | character
  | monster
deriving Repr, DecidableEq

/-- A combat ability dictionary: the keys read by `_process_ability` plus
those appearing in the monster ability pools.  `damage_multiplier` is kept
in tenths so that `int(base_damage * multiplier)` is the exact rational
truncation (the float rounding of the source is immaterial to every
claim). -/
structure Ability where
  name : String
  damage_multiplier : Option Int := none
  damage : Option Int := none
  effect : Option String := none
  target : Option String := none
  amount : Option Int := none
  duration : Option Int := none
  cooldown : Option Int := none
  heal_percent : Option Int := none
deriving Repr, DecidableEq

/-- An inventory item dictionary as read by `_process_item`. -/
structure CItem where
  name : String
  itype : Option String := none
  subtype : Option String := none
  effect : Option String := none
  amount : Option Int := none
  duration : Option Int := none
deriving Repr, DecidableEq

/-- A participant's `data` dictionary (character or monster record as the
combat engine reads it). -/
structure Entity where
  name : String
  attributes : Attributes
  hp : Int
  max_hp : Int
  mp : Int := 0
  max_mp : Int := 0
  attack : Int := 0
  defense : Int
  abilities : List Ability := []
  inventory : List CItem := []
deriving Repr, DecidableEq

/-- A participant record `{"type": ..., "data": ...}`. -/
structure Participant where
  ptype : PType
  data : Entity
deriving Repr, DecidableEq

def defaultParticipant : Participant :=
  { ptype := PType.monster,
    data := { name := "", attributes := ⟨0, 0, 0⟩, hp := 0, max_hp := 0,
              defense := 0 } }

/-- A timed active-effect record.  `source` and `target` are participant
indices into the participants list — the embedding of the aliased
participant-dictionary references of the source. -/
structure ActiveEffect where
  etype : String
  source : Nat
  target : Option Nat
  duration : Int
  amount : Int := 0
  description : String
deriving Repr, DecidableEq

/-- The plain combat-state dictionary of the static engine.  The
initiative order stores (participant index, initiative roll) pairs. -/
structure CombatState where
  participants : List Participant
  initiative_order : List (Nat × Int)
  current_turn : Nat
  round : Int
  status : Nat
  log : List String
  active_effects : List ActiveEffect
deriving Repr, DecidableEq

namespace CombatSystem

def ACTIVE : Nat := 0
def VICTORY : Nat := 1
def DEFEAT : Nat := 2
def FLED : Nat := 3

end CombatSystem

namespace CombatState

/-- `get_current_participant`: the participant reference at the current
initiative position (`none` embeds the source's IndexError). -/
def pindex (s : CombatState) : Option Nat :=
  (s.initiative_order.get? s.current_turn).map (·.1)

/-- Read a participant through its reference. -/
def pget (s : CombatState) (i : Nat) : Participant :=
  s.participants.getD i defaultParticipant

/-- Mutate the entity data behind a participant reference. -/
def updateData (s : CombatState) (i : Nat) (f : Entity → Entity) : CombatState :=
  match s.participants.get? i with
  | none => s
  | some p => { s with participants := s.participants.set i { p with data := f p.data } }

/-- Append a log line. -/
def addLog (s : CombatState) (msg : String) : CombatState :=
  { s with log := s.log ++ [msg] }

/-- The `_process_attack` check whether a `defend` effect targets `t`. -/
def defendingOf (s : CombatState) (t : Nat) : Bool :=
  s.active_effects.any (fun e => e.target = some t ∧ e.etype = "defend")

/-- `CombatSystem._process_attack`. -/
def processAttack (s : CombatState) (attacker : Nat) (target : Option Nat)
    (g : Dice) : CombatState × Dice :=
  match target with
  | none => (s.addLog ((s.pget attacker).data.name ++ " attacks but has no target!"), g)
  | some t =>
    let str_mod := pyDiv ((s.pget attacker).data.attributes.strength - 10) 2
    let (r1, g) := g.randint 1 6
    let (r2, g) := g.randint 1 6
    let (r3, g) := g.randint 1 6
    let attack_roll : Int := ((r1 + r2 + r3 : Nat) : Int) + str_mod
    let defending := s.defendingOf t
    let defense := (s.pget t).data.defense + (if defending then 2 else 0)
    let tname := (s.pget t).data.name
    let s := s.addLog ((s.pget attacker).data.name ++ " attacks " ++ tname ++ ".")
    let s := s.addLog ("Attack roll: " ++ toString attack_roll ++ " vs Defense: " ++
      toString defense)
    if attack_roll ≥ defense then
      let (r4, g) := g.randint 1 6
      let damage0 : Int := (r4 : Int) + str_mod
      let damage := if defending then max 1 (damage0 - 2) else damage0
      let s := s.updateData t (fun e => { e with hp := e.hp - damage })
      let s := s.addLog ("Hit! " ++ tname ++ " takes " ++ toString damage ++ " damage.")
      if (s.pget t).data.hp ≤ 0 then
        let s := s.updateData t (fun e => { e with hp := 0 })
        (s.addLog (tname ++ " is defeated!"), g)
      else (s, g)
    else
      (s.addLog ("Miss! " ++ tname ++ " avoids the attack."), g)

/-- `CombatSystem._process_defend`. -/
def processDefend (s : CombatState) (defender : Nat) : CombatState :=
  let effect : ActiveEffect :=
    { etype := "defend", source := defender, target := some defender,
      duration := 1, description := "Defending: +2 defense, damage reduction" }
  let s := { s with active_effects := s.active_effects ++ [effect] }
  s.addLog ((s.pget defender).data.name ++ " takes a defensive stance.")

/-- `CombatSystem._process_ability`. -/
def processAbility (s : CombatState) (user : Nat) (target : Option Nat)
    (ability_index : Option Nat) (g : Dice) : CombatState × Dice :=
  match ability_index with
  | none =>
    (s.addLog ((s.pget user).data.name ++ " tries to use an ability but fails!"), g)
  | some ai =>
    let abilities := (s.pget user).data.abilities
    match abilities.get? ai with
    | none =>
      (s.addLog ((s.pget user).data.name ++ " tries to use an invalid ability!"), g)
    | some ability =>
      let s := s.addLog ((s.pget user).data.name ++ " uses " ++ ability.name ++ "!")
      match ability.damage_multiplier with
      | some multTenths =>
        (match target with
         | none => (s.addLog "No target for the ability!", g)
         | some t =>
           let str_mod := pyDiv ((s.pget user).data.attributes.strength - 10) 2
           let (r, g) := g.randint 1 6
           let base_damage : Int := (r : Int) + str_mod
           let damage := pyTrunc (base_damage * multTenths) 10
           let tname := (s.pget t).data.name
           let s := s.updateData t (fun e => { e with hp := e.hp - damage })
           let s := s.addLog (tname ++ " takes " ++ toString damage ++ " damage!")
           if (s.pget t).data.hp ≤ 0 then
             let s := s.updateData t (fun e => { e with hp := 0 })
             (s.addLog (tname ++ " is defeated!"), g)
           else (s, g))
      | none =>
        match ability.effect with
        | some eff =>
          let effect_target := if ability.target.getD "single" = "single" then target
            else none
          let effect : ActiveEffect :=
            { etype := eff, source := user, target := effect_target,
              duration := (ability.duration.getD 1),
              amount := (ability.amount.getD 0),
              description := "Affected by " ++ ability.name }
          let s := { s with active_effects := s.active_effects ++ [effect] }
          (match effect_target with
           | some et =>
             (s.addLog ((s.pget et).data.name ++ " is affected by " ++
               ability.name ++ "!"), g)
           | none =>
             (s.addLog ("The effect " ++ ability.name ++ " is applied!"), g))
        | none =>
          match ability.damage with
          | some damage =>
            if ability.target.getD "single" = "single" then
              match target with
              | none => (s.addLog "No target for the ability!", g)
              | some t =>
                let tname := (s.pget t).data.name
                let s := s.updateData t (fun e => { e with hp := e.hp - damage })
                let s := s.addLog (tname ++ " takes " ++ toString damage ++ " damage!")
                if (s.pget t).data.hp ≤ 0 then
                  let s := s.updateData t (fun e => { e with hp := 0 })
                  (s.addLog (tname ++ " is defeated!"), g)
                else (s, g)
            else
              let targets := (List.range s.participants.length).filter
                (fun i => (s.pget i).ptype ≠ (s.pget user).ptype)
              let s := targets.foldl (fun s t =>
                let tname := (s.pget t).data.name
                let s := s.updateData t (fun e => { e with hp := e.hp - damage })
                let s := s.addLog (tname ++ " takes " ++ toString damage ++ " damage!")
                if (s.pget t).data.hp ≤ 0 then
                  let s := s.updateData t (fun e => { e with hp := 0 })
                  s.addLog (tname ++ " is defeated!")
                else s) s
              (s, g)
          | none => (s, g)

/-- `CombatSystem._process_item`. -/
def processItem (s : CombatState) (user : Nat) (target : Option Nat)
    (item_index : Option Nat) : CombatState :=
  if (s.pget user).ptype ≠ PType.character then
    s.addLog ((s.pget user).data.name ++ " can" ++ apos ++ "t use items!")
  else
    match item_index with
    | none => s.addLog ((s.pget user).data.name ++ " tries to use an item but fails!")
    | some ii =>
      let inventory := (s.pget user).data.inventory
      match inventory.get? ii with
      | none => s.addLog ((s.pget user).data.name ++ " tries to use an invalid item!")
      | some item =>
        let s := s.addLog ((s.pget user).data.name ++ " uses " ++ item.name ++ "!")
        let s :=
          if item.itype = some "consumable" then
            if item.subtype = some "health_potion" then
              let t := target.getD user
              let healing := item.amount.getD 10
              let s := s.updateData t (fun e =>
                { e with hp := min (e.hp + healing) e.max_hp })
              s.addLog ((s.pget t).data.name ++ " is healed for " ++
                toString healing ++ " HP!")
            else if item.subtype = some "mana_potion" then
              let t := target.getD user
              let mana := item.amount.getD 10
              let s := s.updateData t (fun e =>
                { e with mp := min (e.mp + mana) e.max_mp })
              s.addLog ((s.pget t).data.name ++ " restores " ++
                toString mana ++ " MP!")
            else if item.subtype = some "buff_item" then
              let t := target.getD user
              let effect : ActiveEffect :=
                { etype := item.effect.getD "increase_attack", source := user,
                  target := some t, duration := item.duration.getD 3,
                  amount := item.amount.getD 2,
                  description := "Buffed by " ++ item.name }
              let s := { s with active_effects := s.active_effects ++ [effect] }
              s.addLog ((s.pget t).data.name ++ " is buffed by " ++ item.name ++ "!")
            else s
          else s
        s.updateData user (fun e => { e with inventory := e.inventory.eraseIdx ii })

/-- `CombatSystem._process_flee`. -/
def processFlee (s : CombatState) (participant : Nat) (g : Dice) :
    CombatState × Dice :=
  if (s.pget participant).ptype ≠ PType.character then
    (s.addLog ((s.pget participant).data.name ++ " can" ++ apos ++ "t flee!"), g)
  else
    let dex_mod := pyDiv ((s.pget participant).data.attributes.dexterity - 10) 2
    let (r1, g) := g.randint 1 6
    let (r2, g) := g.randint 1 6
    let (r3, g) := g.randint 1 6
    let flee_roll : Int := ((r1 + r2 + r3 : Nat) : Int) + dex_mod
    let difficulty : Int := 10 + ((s.participants.length : Int) - 1)
    let s := s.addLog ((s.pget participant).data.name ++ " attempts to flee!")
    if flee_roll ≥ difficulty then
      let s := { s with status := CombatSystem.FLED }
      (s.addLog ((s.pget participant).data.name ++ " successfully escapes!"), g)
    else
      (s.addLog ((s.pget participant).data.name ++ " fails to escape!"), g)

/-- First phase of `CombatSystem._apply_effects`: apply each effect. -/
def applyOneEffect (s : CombatState) (e : ActiveEffect) : CombatState :=
  match e.target with
  | none => s
  | some t =>
    if e.etype = "damage_over_time" then
      let damage := e.amount
      let tname := (s.pget t).data.name
      let s := s.updateData t (fun en => { en with hp := en.hp - damage })
      let s := s.addLog (tname ++ " takes " ++ toString damage ++ " damage from " ++
        e.description ++ "!")
      if (s.pget t).data.hp ≤ 0 then
        let s := s.updateData t (fun en => { en with hp := 0 })
        s.addLog (tname ++ " is defeated!")
      else s
    else s

/-- Second phase of `CombatSystem._apply_effects`: decrement durations,
removing a `defend` effect outright when it is its target's turn. -/
def tickOneEffect (current : Nat) (acc : CombatState × List ActiveEffect)
    (e : ActiveEffect) : CombatState × List ActiveEffect :=
  let (s, kept) := acc
  if e.etype = "defend" ∧ e.target = some current then
    (s.addLog ((s.pget current).data.name ++ " is no longer defending."), kept)
  else
    let e := { e with duration := e.duration - 1 }
    if e.duration > 0 then (s, kept ++ [e])
    else (s.addLog ("The effect " ++ e.description ++ " has worn off."), kept)

/-- `CombatSystem._apply_effects`. -/
def applyEffects (s : CombatState) : Option CombatState :=
  let s := s.active_effects.foldl applyOneEffect s
  match s.pindex with
  | none => none
  | some current =>
    let res := s.active_effects.foldl (tickOneEffect current) (s, [])
    some { res.1 with active_effects := res.2 }

/-- `CombatSystem._check_combat_end`. -/
def checkCombatEnd (s : CombatState) : CombatState :=
  let character_defeated :=
    ¬ s.participants.any (fun p => p.ptype = PType.character ∧ p.data.hp > 0)
  let monsters_defeated :=
    ¬ s.participants.any (fun p => p.ptype = PType.monster ∧ p.data.hp > 0)
  if character_defeated then
    let s := { s with status := CombatSystem.DEFEAT }
    s.addLog "You have been defeated!"
  else if monsters_defeated then
    let s := { s with status := CombatSystem.VICTORY }
    s.addLog "Victory! All enemies have been defeated!"
  else s

/-- One advance of the turn index with round bookkeeping (`next_turn`). -/
def advanceTurn (s : CombatState) : CombatState :=
  let ct := (s.current_turn + 1) % s.initiative_order.length
  let s := { s with current_turn := ct }
  if ct = 0 then
    let s := { s with round := s.round + 1 }
    s.addLog ("Round " ++ toString s.round ++ " begins!")
  else s

/-- The defeated-skipping loop of `next_turn`; the fuel bounds the search
(`none` embeds the source's non-terminating loop when nobody is alive). -/
def skipDefeated : Nat → CombatState → Option CombatState
  | 0, _ => none
  | fuel + 1, s =>
    match s.pindex with
    | none => none
    | some ci =>
      if (s.pget ci).data.hp ≤ 0 then skipDefeated fuel (advanceTurn s)
      else some s

/-- `CombatSystem.next_turn`. -/
def next_turn (s : CombatState) : Option CombatState :=
  let s := advanceTurn s
  match skipDefeated (s.initiative_order.length + 1) s with
  | none => none
  | some s =>
    match s.pindex with
    | none => none
    | some ci => some (s.addLog ((s.pget ci).data.name ++ apos ++ "s turn."))

/-- `CombatSystem.process_action`: dispatch the current participant's
action, apply active effects, check the end conditions and advance the
turn while combat remains active. -/
def process_action (s : CombatState) (action : String)
    (target_index ability_index item_index : Option Nat) (g : Dice) :
    Option (CombatState × Dice) :=
  match s.pindex with
  | none => none
  | some current =>
    if s.status ≠ CombatSystem.ACTIVE then some (s, g)
    else
      let tfetch : Option (Option Nat) :=
        match target_index with
        | none => some none
        | some t =>
          match s.participants.get? t with
          | none => none
          | some _ => some (some t)
      match tfetch with
      | none => none
      | some target =>
        let sg :=
          if action = "attack" then s.processAttack current target g
          else if action = "defend" then (s.processDefend current, g)
          else if action = "ability" then s.processAbility current target ability_index g
          else if action = "item" then (s.processItem current target item_index, g)
          else if action = "flee" then s.processFlee current g
          else (s, g)
        match sg.1.applyEffects with
        | none => none
        | some s2 =>
          let s3 := s2.checkCombatEnd
          if s3.status = CombatSystem.ACTIVE then
            match s3.next_turn with
            | none => none
            | some s4 => some (s4, sg.2)
          else some (s3, sg.2)

end CombatState

/-! ### Combat claims: samples and statement vocabulary -/

/-- The `k`-th six-sided die drawn from the stream of `g`
(`randint(1, 6)` on the `k`-th unconsumed draw). -/
def d6At (g : Dice) (k : Nat) : Nat := 1 + g.f (g.pos + k) % 6

/-- The damage dealt by a landed `_process_attack` hit from attacker `a`
against target `t` with dice `g` (the damage die is the fourth draw,
after the three attack-roll dice): `1d6 + str_mod`, reduced by 2 with a
floor of 1 when the target is defending. -/
def attackDamage (s : CombatState) (a t : Nat) (g : Dice) : Int :=
  let str_mod := pyDiv ((s.pget a).data.attributes.strength - 10) 2
  let damage0 : Int := (d6At g 3 : Int) + str_mod
  if s.defendingOf t then max 1 (damage0 - 2) else damage0

/-- A finished (Defeat) two-participant combat state. -/
def c9Sample : CombatState :=
  { participants := [
      { ptype := PType.character,
        data := { name := "Hero", attributes := ⟨12, 14, 10⟩, hp := 0,
                  max_hp := 20, defense := 17 } },
      { ptype := PType.monster,
        data := { name := "Slime", attributes := ⟨10, 10, 10⟩, hp := 4,
                  max_hp := 4, defense := 8 } }],
    initiative_order := [(0, 12), (1, 9)],
    current_turn := 0, round := 1, status := CombatSystem.DEFEAT,
    log := [], active_effects := [] }

/-- An active combat state in which both sides are simultaneously at 0 hp. -/
def c10Sample : CombatState :=
  { participants := [
      { ptype := PType.character,
        data := { name := "Hero", attributes := ⟨12, 14, 10⟩, hp := 0,
                  max_hp := 20, defense := 17 } },
      { ptype := PType.monster,
        data := { name := "Slime", attributes := ⟨10, 10, 10⟩, hp := 0,
                  max_hp := 4, defense := 8 } }],
    initiative_order := [(0, 12), (1, 9)],
    current_turn := 0, round := 1, status := CombatSystem.ACTIVE,
    log := [], active_effects := [] }

/-- An active two-participant state with the character about to act. -/
def c2Sample : CombatState :=
  { participants := [
      { ptype := PType.character,
        data := { name := "Hero", attributes := ⟨12, 14, 10⟩, hp := 20,
                  max_hp := 20, defense := 17 } },
      { ptype := PType.monster,
        data := { name := "Slime", attributes := ⟨10, 10, 10⟩, hp := 4,
                  max_hp := 4, defense := 8 } }],
    initiative_order := [(0, 12), (1, 9)],
    current_turn := 0, round := 1, status := CombatSystem.ACTIVE,
    log := [], active_effects := [] }

/-- An active state whose current attacker has strength 8 (modifier −1). -/
def c1Sample : CombatState :=
  { participants := [
      { ptype := PType.character,
        data := { name := "Hero", attributes := ⟨8, 10, 10⟩, hp := 20,
                  max_hp := 20, defense := 12 } },
      { ptype := PType.monster,
        data := { name := "Slime", attributes := ⟨10, 10, 10⟩, hp := 5,
                  max_hp := 5, defense := 5 } }],
    initiative_order := [(0, 12), (1, 9)],
    current_turn := 0, round := 1, status := CombatSystem.ACTIVE,
    log := [], active_effects := [] }

/-- A dice stream whose three attack dice each show 3 (total 12) and whose
damage die shows 1. -/
def c1Dice : Dice := ⟨fun i => if i < 3 then 2 else 0, 0⟩

/-- C9: when the combat status is not Active (here Defeat), `process_action`
returns the state completely unchanged — no log line, no hp/mp change, no
effect added or ticked, no turn or round advance — for every action name
and every choice of the optional indices. -/
theorem c9_process_action_inactive (s : CombatState) (action : String)
    (ti ai ii : Option Nat) (g : Dice)
    (hct : s.current_turn < s.initiative_order.length)
    (hstatus : s.status ≠ CombatSystem.ACTIVE) :
    s.process_action action ti ai ii g = some (s, g) := by
  obtain ⟨e, he⟩ : ∃ e, s.initiative_order.get? s.current_turn = some e := by
    rw [List.get?_eq_getElem?]
    exact ⟨_, List.getElem?_eq_getElem hct⟩
  unfold CombatState.process_action CombatState.pindex
  rw [he, Option.map_some']
  dsimp only
  rw [if_pos hstatus]

/-- C9 witness: a concrete finished combat rejects an attack action
without any state change. -/
theorem c9_process_action_inactive_witness :
    c9Sample.process_action "attack" (some 1) none none ⟨fun _ => 0, 0⟩ =
      some (c9Sample, ⟨fun _ => 0, 0⟩) :=
  c9_process_action_inactive c9Sample "attack" (some 1) none none
    ⟨fun _ => 0, 0⟩ (by decide) (by decide)

/-- C10: whenever every character participant is at 0 hp or below,
`_check_combat_end` resolves the combat to Defeat (appending the defeat
line), never to Victory — the character-defeated branch is checked first,
so a simultaneous wipe of both sides is a Defeat. -/
theorem c10_check_combat_end_defeat (s : CombatState)
    (h : ∀ p ∈ s.participants, p.ptype = PType.character → p.data.hp ≤ 0) :
    s.checkCombatEnd.status = CombatSystem.DEFEAT ∧
    s.checkCombatEnd.status ≠ CombatSystem.VICTORY ∧
    "You have been defeated!" ∈ s.checkCombatEnd.log := by
  have hany : s.participants.any
      (fun p => p.ptype = PType.character ∧ p.data.hp > 0) = false := by
    rw [List.any_eq_false]
    intro p hp
    simp only [decide_eq_true_eq, not_and, not_lt]
    intro h1
    exact h p hp h1
  unfold CombatState.checkCombatEnd
  dsimp only
  have hcond : ¬ (s.participants.any
      (fun p => p.ptype = PType.character ∧ p.data.hp > 0) = true) := by
    rw [hany]; exact Bool.false_ne_true
  rw [if_pos hcond]
  unfold CombatState.addLog
  dsimp only
  exact ⟨rfl, by decide,
    List.mem_append_right _ (List.mem_singleton.mpr rfl)⟩

/-- C10 witness: with the character and the monster simultaneously at 0 hp
the end check resolves to Defeat, not Victory. -/
theorem c10_check_combat_end_defeat_witness :
    c10Sample.checkCombatEnd.status = CombatSystem.DEFEAT ∧
    c10Sample.checkCombatEnd.status ≠ CombatSystem.VICTORY ∧
    "You have been defeated!" ∈ c10Sample.checkCombatEnd.log :=
  c10_check_combat_end_defeat c10Sample (by decide)

/-- C2: the defend effect does NOT survive until the defender's next turn.
`process_action("defend", ...)` first appends the defend effect and then
calls `_apply_effects` within the same call; since `current_participant`
is still the defender at that point, the defender-turn check fires
immediately and removes the effect (logging the stand-down line), so the
returned state — with the next participant now to act — carries no active
effect at all, and no +2 defense protects the defender on the other
participants' turns. -/
theorem c2_defend_effect_removed_in_same_call :
    (c2Sample.process_action "defend" none none none ⟨fun _ => 0, 0⟩).map
      (fun r => (r.1.active_effects, r.1.current_turn, r.1.status,
        r.1.log.contains "Hero is no longer defending.")) =
    some ([], 1, CombatSystem.ACTIVE, true) := by decide

/-- C1 counterexample: a strength-8 attacker (strength modifier −1) lands a
hit (attack roll 12 − 1 = 11 against defense 5) but the damage die shows 1,
so the computed damage is 1 − 1 = 0 — there is no `max(1, ...)` floor in the
non-defending branch of `_process_attack` — and the living target's hp does
not decrease at all (it stays at 5). -/
theorem c1_counterexample :
    (c1Sample.process_action "attack" (some 1) none none c1Dice).map
      (fun r => ((r.1.pget 1).data.hp,
        r.1.log.contains "Hit! Slime takes 0 damage.")) =
    some (5, true) := by decide

/-! ### Preservation lemmas for the combat pipeline -/

theorem pget_updateData_self (s : CombatState) (i : Nat) (f : Entity → Entity)
    (hi : i < s.participants.length) :
    (s.updateData i f).pget i =
      { s.pget i with data := f (s.pget i).data } := by
  unfold CombatState.updateData CombatState.pget
  rw [List.get?_eq_getElem?, List.getElem?_eq_getElem hi]
  dsimp only
  rw [List.getD_eq_getElem?_getD, List.getElem?_set_self hi,
    List.getD_eq_getElem s.participants _ hi]
  rfl

theorem pget_updateData_ne (s : CombatState) (i j : Nat) (f : Entity → Entity)
    (hj : j ≠ i) : (s.updateData i f).pget j = s.pget j := by
  unfold CombatState.updateData CombatState.pget
  cases s.participants.get? i with
  | none => rfl
  | some p =>
    dsimp only
    rw [List.getD_eq_getElem?_getD, List.getElem?_set_ne (Ne.symm hj),
      List.getD_eq_getElem?_getD]

theorem updateData_fields (s : CombatState) (i : Nat) (f : Entity → Entity) :
    (s.updateData i f).participants.length = s.participants.length ∧
    (s.updateData i f).initiative_order = s.initiative_order ∧
    (s.updateData i f).current_turn = s.current_turn ∧
    (s.updateData i f).status = s.status ∧
    (s.updateData i f).active_effects = s.active_effects ∧
    (s.updateData i f).log = s.log := by
  unfold CombatState.updateData
  cases s.participants.get? i with
  | none => exact ⟨rfl, rfl, rfl, rfl, rfl, rfl⟩
  | some p => exact ⟨List.length_set _ _ _, rfl, rfl, rfl, rfl, rfl⟩

theorem pget_congr (s1 s2 : CombatState) (j : Nat)
    (h : s1.participants = s2.participants) : s1.pget j = s2.pget j := by
  unfold CombatState.pget
  rw [h]

theorem applyOneEffect_nodot (s : CombatState) (e : ActiveEffect)
    (h : e.etype ≠ "damage_over_time") : s.applyOneEffect e = s := by
  unfold CombatState.applyOneEffect
  rcases htg : e.target with _ | t
  · rfl
  · dsimp only
    rw [if_neg h]

theorem foldl_applyOne_nodot (l : List ActiveEffect) :
    ∀ s : CombatState, (∀ e ∈ l, e.etype ≠ "damage_over_time") →
      l.foldl CombatState.applyOneEffect s = s := by
  induction l with
  | nil => intro s _; rfl
  | cons e l ih =>
    intro s h
    rw [List.foldl_cons, applyOneEffect_nodot s e (h e (List.mem_cons_self e l))]
    exact ih s (fun x hx => h x (List.mem_cons_of_mem e hx))

theorem tickOne_fields (current : Nat) (acc : CombatState × List ActiveEffect)
    (e : ActiveEffect) :
    (CombatState.tickOneEffect current acc e).1.participants = acc.1.participants ∧
    (CombatState.tickOneEffect current acc e).1.initiative_order = acc.1.initiative_order ∧
    (CombatState.tickOneEffect current acc e).1.current_turn = acc.1.current_turn ∧
    (CombatState.tickOneEffect current acc e).1.status = acc.1.status ∧
    ∃ tail, (CombatState.tickOneEffect current acc e).1.log = acc.1.log ++ tail := by
  obtain ⟨s, kept⟩ := acc
  unfold CombatState.tickOneEffect CombatState.addLog
  dsimp only
  split_ifs <;> first
    | exact ⟨rfl, rfl, rfl, rfl, [], (List.append_nil _).symm⟩
    | exact ⟨rfl, rfl, rfl, rfl, _, rfl⟩

theorem tick_foldl_fields (current : Nat) (l : List ActiveEffect) :
    ∀ acc : CombatState × List ActiveEffect,
      (l.foldl (CombatState.tickOneEffect current) acc).1.participants = acc.1.participants ∧
      (l.foldl (CombatState.tickOneEffect current) acc).1.initiative_order = acc.1.initiative_order ∧
      (l.foldl (CombatState.tickOneEffect current) acc).1.current_turn = acc.1.current_turn ∧
      (l.foldl (CombatState.tickOneEffect current) acc).1.status = acc.1.status ∧
      ∃ tail, (l.foldl (CombatState.tickOneEffect current) acc).1.log = acc.1.log ++ tail := by
  induction l with
  | nil =>
    intro acc
    exact ⟨rfl, rfl, rfl, rfl, [], (List.append_nil _).symm⟩
  | cons e l ih =>
    intro acc
    rw [List.foldl_cons]
    obtain ⟨h1, h2, h3, h4, t1, h5⟩ := ih (CombatState.tickOneEffect current acc e)
    obtain ⟨g1, g2, g3, g4, t2, g5⟩ := tickOne_fields current acc e
    exact ⟨h1.trans g1, h2.trans g2, h3.trans g3, h4.trans g4, t2 ++ t1,
      by rw [h5, g5, List.append_assoc]⟩

theorem applyEffects_nodot (s : CombatState)
    (hnd : ∀ e ∈ s.active_effects, e.etype ≠ "damage_over_time")
    (hct : s.current_turn < s.initiative_order.length) :
    ∃ s2, s.applyEffects = some s2 ∧
      s2.participants = s.participants ∧
      s2.initiative_order = s.initiative_order ∧
      s2.current_turn = s.current_turn ∧
      s2.status = s.status ∧
      ∃ tail, s2.log = s.log ++ tail := by
  obtain ⟨en, hen⟩ : ∃ en, s.initiative_order.get? s.current_turn = some en := by
    rw [List.get?_eq_getElem?]
    exact ⟨_, List.getElem?_eq_getElem hct⟩
  unfold CombatState.applyEffects CombatState.pindex
  rw [foldl_applyOne_nodot s.active_effects s hnd]
  dsimp only
  rw [hen, Option.map_some']
  dsimp only
  obtain ⟨h1, h2, h3, h4, t1, h5⟩ :=
    tick_foldl_fields en.1 s.active_effects (s, [])
  exact ⟨_, rfl, h1, h2, h3, h4, t1, h5⟩

theorem checkCombatEnd_fields (s : CombatState) :
    s.checkCombatEnd.participants = s.participants ∧
    s.checkCombatEnd.initiative_order = s.initiative_order ∧
    s.checkCombatEnd.current_turn = s.current_turn ∧
    s.checkCombatEnd.active_effects = s.active_effects ∧
    ∃ tail, s.checkCombatEnd.log = s.log ++ tail := by
  unfold CombatState.checkCombatEnd CombatState.addLog
  dsimp only
  split_ifs <;> first
    | exact ⟨rfl, rfl, rfl, rfl, [], (List.append_nil _).symm⟩
    | exact ⟨rfl, rfl, rfl, rfl, _, rfl⟩

theorem advanceTurn_fields (s : CombatState) :
    (s.advanceTurn).participants = s.participants ∧
    (s.advanceTurn).initiative_order = s.initiative_order ∧
    (s.advanceTurn).status = s.status ∧
    (s.advanceTurn).active_effects = s.active_effects ∧
    (s.advanceTurn).current_turn = (s.current_turn + 1) % s.initiative_order.length ∧
    ∃ tail, (s.advanceTurn).log = s.log ++ tail := by
  unfold CombatState.advanceTurn CombatState.addLog
  dsimp only
  split_ifs <;> first
    | exact ⟨rfl, rfl, rfl, rfl, rfl, [], (List.append_nil _).symm⟩
    | exact ⟨rfl, rfl, rfl, rfl, rfl, _, rfl⟩

theorem updateData_length (s : CombatState) (i : Nat) (f : Entity → Entity) :
    (s.updateData i f).participants.length = s.participants.length :=
  (updateData_fields s i f).1

theorem updateData_initiative (s : CombatState) (i : Nat) (f : Entity → Entity) :
    (s.updateData i f).initiative_order = s.initiative_order :=
  (updateData_fields s i f).2.1

theorem updateData_current (s : CombatState) (i : Nat) (f : Entity → Entity) :
    (s.updateData i f).current_turn = s.current_turn :=
  (updateData_fields s i f).2.2.1

theorem updateData_status (s : CombatState) (i : Nat) (f : Entity → Entity) :
    (s.updateData i f).status = s.status :=
  (updateData_fields s i f).2.2.2.1

theorem updateData_effects (s : CombatState) (i : Nat) (f : Entity → Entity) :
    (s.updateData i f).active_effects = s.active_effects :=
  (updateData_fields s i f).2.2.2.2.1

theorem updateData_log (s : CombatState) (i : Nat) (f : Entity → Entity) :
    (s.updateData i f).log = s.log :=
  (updateData_fields s i f).2.2.2.2.2

theorem addLog_pget (s : CombatState) (m : String) (j : Nat) :
    (s.addLog m).pget j = s.pget j := rfl

theorem addLog_participants (s : CombatState) (m : String) :
    (s.addLog m).participants = s.participants := rfl

theorem addLog_initiative (s : CombatState) (m : String) :
    (s.addLog m).initiative_order = s.initiative_order := rfl

theorem addLog_current (s : CombatState) (m : String) :
    (s.addLog m).current_turn = s.current_turn := rfl

theorem addLog_status (s : CombatState) (m : String) :
    (s.addLog m).status = s.status := rfl

theorem addLog_effects (s : CombatState) (m : String) :
    (s.addLog m).active_effects = s.active_effects := rfl

theorem addLog_log (s : CombatState) (m : String) :
    (s.addLog m).log = s.log ++ [m] := rfl

theorem processAttack_hit (s : CombatState) (a t : Nat) (g : Dice)
    (hti : t < s.participants.length)
    (hhit : ((d6At g 0 + d6At g 1 + d6At g 2 : Nat) : Int) +
        pyDiv ((s.pget a).data.attributes.strength - 10) 2 ≥
      (s.pget t).data.defense + (if s.defendingOf t then 2 else 0)) :
    ∃ s1, s.processAttack a (some t) g = (s1, ⟨g.f, g.pos + 4⟩) ∧
      (s1.pget t).data.hp =
        max 0 ((s.pget t).data.hp - attackDamage s a t g) ∧
      (∀ j, j ≠ t → s1.pget j = s.pget j) ∧
      s1.participants.length = s.participants.length ∧
      s1.initiative_order = s.initiative_order ∧
      s1.current_turn = s.current_turn ∧
      s1.status = s.status ∧
      s1.active_effects = s.active_effects ∧
      (∃ tail, s1.log = s.log ++ tail) ∧
      ((s.pget t).data.hp - attackDamage s a t g ≤ 0 →
        ((s.pget t).data.name ++ " is defeated!") ∈ s1.log) := by
  unfold CombatState.processAttack
  dsimp only [Dice.randint, Dice.next]
  split_ifs with hdef hh hd hh2 hd2
  · -- defending, hit, target defeated
    have hdam : attackDamage s a t g =
        max 1 ((d6At g 3 : Int) +
          pyDiv ((s.pget a).data.attributes.strength - 10) 2 - 2) := by
      unfold attackDamage
      rw [if_pos hdef]
    refine ⟨_, rfl, ?_, ?_, ?_, ?_, ?_, ?_, ?_, ?_, ?_⟩
    · simp only [addLog_pget, addLog_participants, updateData_length,
        pget_updateData_self, hti] at hd ⊢
      rw [hdam]
      refine (max_eq_left ?_).symm
      exact hd
    · intro j hj
      simp only [addLog_pget,
        fun (x : CombatState) (f : Entity → Entity) =>
          pget_updateData_ne x t j f hj]
    · simp only [addLog_participants, updateData_length]
    · simp only [addLog_initiative, updateData_initiative]
    · simp only [addLog_current, updateData_current]
    · simp only [addLog_status, updateData_status]
    · simp only [addLog_effects, updateData_effects]
    · exact ⟨_, by simp only [addLog_log, updateData_log, List.append_assoc]; rfl⟩
    · intro _
      simp only [addLog_log, updateData_log]
      exact List.mem_append_right _ (List.mem_singleton.mpr rfl)
  · -- defending, hit, target survives
    have hdam : attackDamage s a t g =
        max 1 ((d6At g 3 : Int) +
          pyDiv ((s.pget a).data.attributes.strength - 10) 2 - 2) := by
      unfold attackDamage
      rw [if_pos hdef]
    refine ⟨_, rfl, ?_, ?_, ?_, ?_, ?_, ?_, ?_, ?_, ?_⟩
    · simp only [addLog_pget, addLog_participants, updateData_length,
        pget_updateData_self, hti] at hd ⊢
      rw [hdam]
      refine (max_eq_right ?_).symm
      exact le_of_not_le hd
    · intro j hj
      simp only [addLog_pget,
        fun (x : CombatState) (f : Entity → Entity) =>
          pget_updateData_ne x t j f hj]
    · simp only [addLog_participants, updateData_length]
    · simp only [addLog_initiative, updateData_initiative]
    · simp only [addLog_current, updateData_current]
    · simp only [addLog_status, updateData_status]
    · simp only [addLog_effects, updateData_effects]
    · exact ⟨_, by simp only [addLog_log, updateData_log, List.append_assoc]; rfl⟩
    · intro h
      simp only [addLog_pget, addLog_participants, updateData_length,
        pget_updateData_self, hti] at hd
      rw [hdam] at h
      exact absurd h hd
  · -- defending, miss: contradicts the hit hypothesis
    rw [if_pos hdef] at hhit
    exact absurd hhit hh
  · -- not defending, hit, target defeated
    have hdam : attackDamage s a t g =
        (d6At g 3 : Int) +
          pyDiv ((s.pget a).data.attributes.strength - 10) 2 := by
      unfold attackDamage
      rw [if_neg hdef]
    refine ⟨_, rfl, ?_, ?_, ?_, ?_, ?_, ?_, ?_, ?_, ?_⟩
    · simp only [addLog_pget, addLog_participants, updateData_length,
        pget_updateData_self, hti] at hd2 ⊢
      rw [hdam]
      refine (max_eq_left ?_).symm
      exact hd2
    · intro j hj
      simp only [addLog_pget,
        fun (x : CombatState) (f : Entity → Entity) =>
          pget_updateData_ne x t j f hj]
    · simp only [addLog_participants, updateData_length]
    · simp only [addLog_initiative, updateData_initiative]
    · simp only [addLog_current, updateData_current]
    · simp only [addLog_status, updateData_status]
    · simp only [addLog_effects, updateData_effects]
    · exact ⟨_, by simp only [addLog_log, updateData_log, List.append_assoc]; rfl⟩
    · intro _
      simp only [addLog_log, updateData_log]
      exact List.mem_append_right _ (List.mem_singleton.mpr rfl)
  · -- not defending, hit, target survives
    have hdam : attackDamage s a t g =
        (d6At g 3 : Int) +
          pyDiv ((s.pget a).data.attributes.strength - 10) 2 := by
      unfold attackDamage
      rw [if_neg hdef]
    refine ⟨_, rfl, ?_, ?_, ?_, ?_, ?_, ?_, ?_, ?_, ?_⟩
    · simp only [addLog_pget, addLog_participants, updateData_length,
        pget_updateData_self, hti] at hd2 ⊢
      rw [hdam]
      refine (max_eq_right ?_).symm
      exact le_of_not_le hd2
    · intro j hj
      simp only [addLog_pget,
        fun (x : CombatState) (f : Entity → Entity) =>
          pget_updateData_ne x t j f hj]
    · simp only [addLog_participants, updateData_length]
    · simp only [addLog_initiative, updateData_initiative]
    · simp only [addLog_current, updateData_current]
    · simp only [addLog_status, updateData_status]
    · simp only [addLog_effects, updateData_effects]
    · exact ⟨_, by simp only [addLog_log, updateData_log, List.append_assoc]; rfl⟩
    · intro h
      simp only [addLog_pget, addLog_participants, updateData_length,
        pget_updateData_self, hti] at hd2
      rw [hdam] at h
      exact absurd h hd2
  · -- not defending, miss: contradicts the hit hypothesis
    rw [if_neg hdef] at hhit
    exact absurd hhit hh2

/-- The participant referenced by initiative slot `i` is alive. -/
def aliveAt (s : CombatState) (i : Nat) : Prop :=
  0 < (s.pget ((s.initiative_order.getD i (0, 0)).1)).data.hp

theorem skipDefeated_exists : ∀ (fuel : Nat) (s : CombatState),
    0 < s.initiative_order.length →
    s.current_turn < s.initiative_order.length →
    (∃ k, k < fuel ∧
      aliveAt s ((s.current_turn + k) % s.initiative_order.length)) →
    ∃ s5, CombatState.skipDefeated fuel s = some s5 ∧
      s5.participants = s.participants ∧
      s5.initiative_order = s.initiative_order ∧
      s5.status = s.status ∧
      s5.active_effects = s.active_effects ∧
      s5.current_turn < s5.initiative_order.length ∧
      ∃ tail, s5.log = s.log ++ tail := by
  intro fuel
  induction fuel with
  | zero =>
    intro s _ _ hex
    obtain ⟨k, hk, _⟩ := hex
    exact absurd hk (Nat.not_lt_zero k)
  | succ fuel ih =>
    intro s hL hct hex
    obtain ⟨k, hk, halive⟩ := hex
    have hgd : s.initiative_order.get? s.current_turn =
        some (s.initiative_order.getD s.current_turn (0, 0)) := by
      rw [List.get?_eq_getElem?, List.getElem?_eq_getElem hct,
        List.getD_eq_getElem _ _ hct]
    simp only [CombatState.skipDefeated]
    unfold CombatState.pindex
    rw [hgd, Option.map_some']
    dsimp only
    by_cases hcur :
        (s.pget ((s.initiative_order.getD s.current_turn (0, 0)).1)).data.hp ≤ 0
    · rw [if_pos hcur]
      have hk0 : k ≠ 0 := by
        rintro rfl
        unfold aliveAt at halive
        rw [Nat.add_zero, Nat.mod_eq_of_lt hct] at halive
        omega
      obtain ⟨hp1, hi1, hs1, he1, hc1, t1, hl1⟩ := advanceTurn_fields s
      have hL1 : 0 < (s.advanceTurn).initiative_order.length := by
        rw [hi1]; exact hL
      have hct1 : (s.advanceTurn).current_turn <
          (s.advanceTurn).initiative_order.length := by
        rw [hc1, hi1]; exact Nat.mod_lt _ hL
      have hex1 : ∃ k2, k2 < fuel ∧ aliveAt (s.advanceTurn)
          (((s.advanceTurn).current_turn + k2) %
            (s.advanceTurn).initiative_order.length) := by
        refine ⟨k - 1, by omega, ?_⟩
        have hidx : ((s.advanceTurn).current_turn + (k - 1)) %
            (s.advanceTurn).initiative_order.length =
            (s.current_turn + k) % s.initiative_order.length := by
          rw [hc1, hi1, Nat.mod_add_mod]
          congr 1
          omega
        unfold aliveAt at halive ⊢
        rw [hidx, hi1, pget_congr (s.advanceTurn) s _ hp1]
        exact halive
      obtain ⟨s5, hrun, p1, p2, p3, p4, p5, t5, l5⟩ :=
        ih (s.advanceTurn) hL1 hct1 hex1
      exact ⟨s5, hrun, p1.trans hp1, p2.trans hi1, p3.trans hs1, p4.trans he1,
        p5, t1 ++ t5, by rw [l5, hl1, List.append_assoc]⟩
    · rw [if_neg hcur]
      exact ⟨s, rfl, rfl, rfl, rfl, rfl, hct, [], (List.append_nil _).symm⟩

theorem next_turn_exists (s : CombatState)
    (hL : 0 < s.initiative_order.length)
    (hct : s.current_turn < s.initiative_order.length)
    (halive : aliveAt s s.current_turn) :
    ∃ s5, s.next_turn = some s5 ∧
      s5.participants = s.participants ∧
      s5.initiative_order = s.initiative_order ∧
      s5.status = s.status ∧
      s5.active_effects = s.active_effects ∧
      ∃ tail, s5.log = s.log ++ tail := by
  obtain ⟨hp1, hi1, hs1, he1, hc1, t1, hl1⟩ := advanceTurn_fields s
  have hL1 : 0 < (s.advanceTurn).initiative_order.length := by
    rw [hi1]; exact hL
  have hct1 : (s.advanceTurn).current_turn <
      (s.advanceTurn).initiative_order.length := by
    rw [hc1, hi1]; exact Nat.mod_lt _ hL
  have hex1 : ∃ k, k < (s.advanceTurn).initiative_order.length + 1 ∧
      aliveAt (s.advanceTurn)
        (((s.advanceTurn).current_turn + k) %
          (s.advanceTurn).initiative_order.length) := by
    refine ⟨s.initiative_order.length - 1, by rw [hi1]; omega, ?_⟩
    have hidx : ((s.advanceTurn).current_turn +
        (s.initiative_order.length - 1)) %
        (s.advanceTurn).initiative_order.length = s.current_turn := by
      rw [hc1, hi1, Nat.mod_add_mod]
      have harith : s.current_turn + 1 + (s.initiative_order.length - 1) =
          s.current_turn + s.initiative_order.length := by omega
      rw [harith, Nat.add_mod_right, Nat.mod_eq_of_lt hct]
    unfold aliveAt at halive ⊢
    rw [hidx, hi1, pget_congr (s.advanceTurn) s _ hp1]
    exact halive
  obtain ⟨s5, hrun, p1, p2, p3, p4, p5, t5, l5⟩ :=
    skipDefeated_exists ((s.advanceTurn).initiative_order.length + 1)
      (s.advanceTurn) hL1 hct1 hex1
  unfold CombatState.next_turn
  dsimp only
  rw [hrun]
  dsimp only
  obtain ⟨en, hen⟩ : ∃ en, s5.initiative_order.get? s5.current_turn = some en := by
    rw [List.get?_eq_getElem?]
    exact ⟨_, List.getElem?_eq_getElem p5⟩
  unfold CombatState.pindex
  rw [hen, Option.map_some']
  dsimp only
  refine ⟨_, rfl, ?_, ?_, ?_, ?_, ?_⟩
  · rw [addLog_participants]; exact p1.trans hp1
  · rw [addLog_initiative]; exact p2.trans hi1
  · rw [addLog_status]; exact p3.trans hs1
  · rw [addLog_effects]; exact p4.trans he1
  · refine ⟨t1 ++ (t5 ++ [(s5.pget en.1).data.name ++ apos ++ "s turn."]), ?_⟩
    rw [addLog_log, l5, hl1]
    simp only [List.append_assoc]

/-- C1 (amended): in an Active combat, when the current participant `a`
attacks a living target `t` (a distinct, in-range participant) and the
attack roll (3d6 + strength modifier) meets the effective defense (base
defense, +2 if the target is defending), then — with no damage-over-time
effects pending — `process_action("attack", ...)` succeeds and the target's
hp becomes `max 0 (hp − damage)` where `damage = 1d6 + strength modifier`,
reduced by 2 with a floor of 1 only when the target is defending.  The hp
strictly decreases whenever the damage is at least 1 (which the defending
branch always guarantees), but a non-positive strength modifier can make
the damage 0 or negative — the claimed unconditional `max(1, ...)` floor
does not exist.  When the resulting hp would be ≤ 0 it is set exactly to 0
and the defeat line is appended to the log. -/
theorem c1_attack_hit_amended (s : CombatState) (a t : Nat) (ir : Int)
    (ai ii : Option Nat) (g : Dice)
    (hio : s.initiative_order.get? s.current_turn = some (a, ir))
    (hstatus : s.status = CombatSystem.ACTIVE)
    (hti : t < s.participants.length)
    (hat : a ≠ t)
    (hpa : 0 < (s.pget a).data.hp)
    (hlt : 0 < (s.pget t).data.hp)
    (hnd : ∀ e ∈ s.active_effects, e.etype ≠ "damage_over_time")
    (hhit : ((d6At g 0 + d6At g 1 + d6At g 2 : Nat) : Int) +
        pyDiv ((s.pget a).data.attributes.strength - 10) 2 ≥
      (s.pget t).data.defense + (if s.defendingOf t then 2 else 0)) :
    ∃ s4 g4, s.process_action "attack" (some t) ai ii g = some (s4, g4) ∧
      (s4.pget t).data.hp =
        max 0 ((s.pget t).data.hp - attackDamage s a t g) ∧
      (1 ≤ attackDamage s a t g → (s4.pget t).data.hp < (s.pget t).data.hp) ∧
      (s.defendingOf t = true → 1 ≤ attackDamage s a t g) ∧
      ((s.pget t).data.hp - attackDamage s a t g ≤ 0 →
        (s4.pget t).data.hp = 0 ∧
        ((s.pget t).data.name ++ " is defeated!") ∈ s4.log) := by
  have hct : s.current_turn < s.initiative_order.length :=
    (List.get?_eq_some.mp hio).1
  unfold CombatState.process_action
  rw [show s.pindex = some a from by
    unfold CombatState.pindex; rw [hio, Option.map_some']]
  dsimp only
  have hsne : ¬ (s.status ≠ CombatSystem.ACTIVE) := by
    rw [hstatus]; exact fun h => h rfl
  rw [if_neg hsne]
  have hgt : s.participants.get? t = some (s.pget t) := by
    rw [List.get?_eq_getElem?, List.getElem?_eq_getElem hti]
    unfold CombatState.pget
    rw [List.getD_eq_getElem s.participants _ hti]
  rw [hgt]
  dsimp only
  rw [if_pos rfl]
  obtain ⟨s1, heq1, hhp1, hoth1, hlen1, hini1, hcur1, hst1, heff1, hlogex1,
    hdef1⟩ := processAttack_hit s a t g hti hhit
  rw [heq1]
  dsimp only
  have hnd1 : ∀ e ∈ s1.active_effects, e.etype ≠ "damage_over_time" := by
    rw [heff1]; exact hnd
  have hct1 : s1.current_turn < s1.initiative_order.length := by
    rw [hcur1, hini1]; exact hct
  obtain ⟨s2, heq2, hp2, hi2, hcur2, hst2, t2, hl2⟩ :=
    applyEffects_nodot s1 hnd1 hct1
  rw [heq2]
  dsimp only
  obtain ⟨hp3, hi3, hcur3, he3, t3, hl3⟩ := checkCombatEnd_fields s2
  have hp3' : (s2.checkCombatEnd).participants = s1.participants := by
    rw [hp3, hp2]
  have hi3' : (s2.checkCombatEnd).initiative_order = s.initiative_order := by
    rw [hi3, hi2, hini1]
  have hcur3' : (s2.checkCombatEnd).current_turn = s.current_turn := by
    rw [hcur3, hcur2, hcur1]
  have hL : 0 < s.initiative_order.length :=
    Nat.lt_of_le_of_lt (Nat.zero_le _) hct
  by_cases hst3 : (s2.checkCombatEnd).status = CombatSystem.ACTIVE
  · rw [if_pos hst3]
    have hL3 : 0 < (s2.checkCombatEnd).initiative_order.length := by
      rw [hi3']; exact hL
    have hct3 : (s2.checkCombatEnd).current_turn <
        (s2.checkCombatEnd).initiative_order.length := by
      rw [hcur3', hi3']; exact hct
    have halive3 : aliveAt (s2.checkCombatEnd)
        (s2.checkCombatEnd).current_turn := by
      unfold aliveAt
      rw [hcur3', hi3']
      have hgd : s.initiative_order.getD s.current_turn (0, 0) = (a, ir) := by
        rw [List.getD_eq_getElem _ _ hct]
        have hg := (List.get?_eq_some.mp hio).2
        rw [List.get_eq_getElem] at hg
        exact hg
      rw [hgd]
      dsimp only
      rw [pget_congr _ s1 a hp3', hoth1 a hat]
      exact hpa
    obtain ⟨s5, heq5, p5, i5, st5, e5, t5, l5⟩ :=
      next_turn_exists (s2.checkCombatEnd) hL3 hct3 halive3
    rw [heq5]
    dsimp only
    have hpget5 : ∀ j, s5.pget j = s1.pget j := fun j =>
      (pget_congr s5 _ j p5).trans (pget_congr _ s1 j hp3')
    refine ⟨s5, _, rfl, ?_, ?_, ?_, ?_⟩
    · rw [hpget5 t]; exact hhp1
    · intro h
      rw [hpget5 t, hhp1]
      rcases le_or_lt ((s.pget t).data.hp - attackDamage s a t g) 0 with hc | hc
      · rw [max_eq_left hc]; exact hlt
      · rw [max_eq_right (le_of_lt hc)]; omega
    · intro hdefd
      unfold attackDamage
      rw [if_pos hdefd]
      exact le_max_left _ _
    · intro hle
      refine ⟨by rw [hpget5 t, hhp1, max_eq_left hle], ?_⟩
      rw [l5, hl3, hl2]
      exact List.mem_append_left _ (List.mem_append_left _
        (List.mem_append_left _ (hdef1 hle)))
  · rw [if_neg hst3]
    have hpget3 : ∀ j, (s2.checkCombatEnd).pget j = s1.pget j := fun j =>
      pget_congr _ s1 j hp3'
    refine ⟨s2.checkCombatEnd, _, rfl, ?_, ?_, ?_, ?_⟩
    · rw [hpget3 t]; exact hhp1
    · intro h
      rw [hpget3 t, hhp1]
      rcases le_or_lt ((s.pget t).data.hp - attackDamage s a t g) 0 with hc | hc
      · rw [max_eq_left hc]; exact hlt
      · rw [max_eq_right (le_of_lt hc)]; omega
    · intro hdefd
      unfold attackDamage
      rw [if_pos hdefd]
      exact le_max_left _ _
    · intro hle
      refine ⟨by rw [hpget3 t, hhp1, max_eq_left hle], ?_⟩
      rw [hl3, hl2]
      exact List.mem_append_left _ (List.mem_append_left _ (hdef1 hle))

/-- A concrete active state for the amended C1 theorem: a strength-14
character (modifier +2) attacking a monster with 10 hp and defense 5. -/
def c1WSample : CombatState :=
  { participants := [
      { ptype := PType.character,
        data := { name := "Hero", attributes := ⟨14, 10, 10⟩, hp := 20,
                  max_hp := 20, defense := 12 } },
      { ptype := PType.monster,
        data := { name := "Slime", attributes := ⟨10, 10, 10⟩, hp := 10,
                  max_hp := 10, defense := 5 } }],
    initiative_order := [(0, 12), (1, 9)],
    current_turn := 0, round := 1, status := CombatSystem.ACTIVE,
    log := [], active_effects := [] }

/-- C1 witness: with an all-ones dice stream the attack roll is
3 + 2 = 5 against defense 5 (a hit) and the damage is 1 + 2 = 3. -/
theorem c1_attack_hit_amended_witness :
    ∃ s4 g4, c1WSample.process_action "attack" (some 1) none none
        ⟨fun _ => 0, 0⟩ = some (s4, g4) ∧
      (s4.pget 1).data.hp =
        max 0 ((c1WSample.pget 1).data.hp -
          attackDamage c1WSample 0 1 ⟨fun _ => 0, 0⟩) ∧
      (1 ≤ attackDamage c1WSample 0 1 ⟨fun _ => 0, 0⟩ →
        (s4.pget 1).data.hp < (c1WSample.pget 1).data.hp) ∧
      (c1WSample.defendingOf 1 = true →
        1 ≤ attackDamage c1WSample 0 1 ⟨fun _ => 0, 0⟩) ∧
      ((c1WSample.pget 1).data.hp -
          attackDamage c1WSample 0 1 ⟨fun _ => 0, 0⟩ ≤ 0 →
        (s4.pget 1).data.hp = 0 ∧
        ((c1WSample.pget 1).data.name ++ " is defeated!") ∈ s4.log) :=
  c1_attack_hit_amended c1WSample 0 1 12 none none ⟨fun _ => 0, 0⟩
    (by decide) rfl (by decide) (by decide) (by decide) (by decide)
    (by decide) (by decide)

/-! ### Serialization round-trips (encounter.py Monster / Encounter,
character.py Character, dungeon.py Room / DungeonLevel) -/

/-- A loot-table entry (the dictionaries built by `Monster._generate_loot`
and copied verbatim by `to_dict`/`from_dict`; `drop_chance` is kept in
tenths, the float rounding of the source being immaterial here since loot
is serialized and restored verbatim). `ltype` is the `"type"` key. -/
structure LootItem where
  ltype : String
  name : String
  component_type : Option String := none
  subtype : Option String := none
  effect : Option String := none
  amount : Option Int := none
  duration : Option Int := none
  value : Option Int := none
  drop_chance_tenths : Int := 10
deriving Repr, DecidableEq

/-- `Monster.TYPE_NAMES` (a lookup that raises `KeyError` — `none` — for
an unknown monster type). -/
def typeNameOf (mt : Int) : Option String :=
  if mt = 1 then some "Glitch"
  else if mt = 2 then some "Digital"
  else if mt = 3 then some "Corrupted"
  else if mt = 4 then some "Virus"
  else none

/-- `Monster._generate_attributes`. -/
def generateAttributes (level mt : Int) : Attributes :=
  let base : Attributes :=
    { strength := 10 + level, dexterity := 10 + level, wisdom := 10 + level }
  if mt = 1 then { base with dexterity := base.dexterity + 2 }
  else if mt = 2 then { base with wisdom := base.wisdom + 2 }
  else if mt = 3 then { base with strength := base.strength + 2 }
  else if mt = 4 then
    { base with strength := base.strength + 1, dexterity := base.dexterity + 1 }
  else base

/-- The type-specific ability pools of `Monster._generate_abilities`
(`damage_multiplier` in tenths). -/
def typePool (mt : Int) : List Ability :=
  if mt = 1 then
    [{ name := "Glitch Strike", damage_multiplier := some 15, target := some "single" },
     { name := "Corruption Field", damage := some 2, target := some "all" },
     { name := "Disrupt", effect := some "reduce_defense", amount := some 2,
       duration := some 2 },
     { name := "Error Cascade", damage := some 1, effect := some "confusion",
       duration := some 2 }]
  else if mt = 2 then
    [{ name := "Data Spike", damage_multiplier := some 12, target := some "single" },
     { name := "Logic Bomb", damage := some 3, target := some "single" },
     { name := "Firewall", effect := some "shield", amount := some 3,
       duration := some 2 },
     { name := "System Scan", effect := some "reveal_weakness", duration := some 2 }]
  else if mt = 3 then
    [{ name := "Corrupt Strike", damage_multiplier := some 13, target := some "single" },
     { name := "Virus Spread", damage := some 1, effect := some "damage_over_time",
       amount := some 1, duration := some 3 },
     { name := "Memory Leak", effect := some "reduce_mp", amount := some 2 },
     { name := "System Crash", damage := some 4, cooldown := some 3 }]
  else if mt = 4 then
    [{ name := "Infect", damage := some 1, effect := some "weaken", amount := some 1,
       duration := some 3 },
     { name := "Replicate", effect := some "summon", cooldown := some 4 },
     { name := "Data Drain", damage := some 2, heal_percent := some 50 },
     { name := "Encryption", effect := some "increase_defense", amount := some 3,
       duration := some 2 }]
  else []

/-- `random.sample(range(avail.length), k)` modelled as successive draws
picking without replacement. -/
def sampleIdx : Nat → List Nat → Dice → List Nat × Dice
  | 0, _, g => ([], g)
  | k + 1, avail, g =>
    let r := g.next
    let i := r.1 % avail.length
    let x := avail.getD i 0
    let rest := sampleIdx k (avail.eraseIdx i) r.2
    (x :: rest.1, rest.2)

/-- `Monster._generate_abilities`. -/
def generateAbilities (level mt : Int) (g : Dice) : List Ability × Dice :=
  let pool := typePool mt
  let num := (min (1 + pyDiv level 3) (pool.length : Int)).toNat
  let picked := sampleIdx num (List.range pool.length) g
  (picked.1.map (fun i => pool.getD i { name := "" }), picked.2)

/-- `Monster._generate_loot`.  The two chance rolls use the modelled
`random.random()` draw in thousandths; `none` embeds the `KeyError` the
source raises when a component drop names `TYPE_NAMES[monster_type]` for
an unknown type. -/
def generateLoot (level mt : Int) (g : Dice) : Option (List LootItem × Dice) :=
  let r1 := g.next
  let cchoice := r1.2.choice ["metal", "elemental", "catalyst", "binding", "rune"]
    "metal"
  let step1 : Option (List LootItem × Dice) :=
    if ((r1.1 % 1000 : Nat) : Int) < 300 + 50 * level then
      match typeNameOf mt with
      | none => none
      | some tn =>
        some ([{ ltype := "component", component_type := some cchoice.1,
                 name := tn ++ " " ++ cchoice.1.capitalize,
                 value := some (3 + level), drop_chance_tenths := 7 }], cchoice.2)
    else some ([], r1.2)
  match step1 with
  | none => none
  | some (loot1, g) =>
    let r2 := g.next
    let ccons := r2.2.choice ["health_potion", "mana_potion", "buff_item"]
      "health_potion"
    let step2 : List LootItem × Dice :=
      if ((r2.1 % 1000 : Nat) : Int) < 200 + 30 * level then
        (if ccons.1 = "health_potion" then
          [{ ltype := "consumable", subtype := some "health_potion",
             name := "Health Chip", effect := some "restore_hp",
             amount := some (5 + level), drop_chance_tenths := 5 }]
        else if ccons.1 = "mana_potion" then
          [{ ltype := "consumable", subtype := some "mana_potion",
             name := "Mana Fragment", effect := some "restore_mp",
             amount := some (5 + level), drop_chance_tenths := 5 }]
        else
          [{ ltype := "consumable", subtype := some "buff_item",
             name := "Combat Algorithm", effect := some "increase_attack",
             amount := some 2, duration := some 3, drop_chance_tenths := 4 }],
         ccons.2)
      else ([], r2.2)
    some (loot1 ++ step2.1 ++
      [{ ltype := "currency", name := "Digital Essence",
         amount := some (10 + level * 5), drop_chance_tenths := 10 }], step2.2)

structure Monster where
  name : String
  level : Int
  monster_type : Int
  attributes : Attributes
  max_hp : Int
  hp : Int
  attack : Int
  defense : Int
  abilities : List Ability
  loot : List LootItem
deriving Repr, DecidableEq

/-- The plain dictionary `Monster.to_dict` produces. -/
structure MonsterDict where
  name : String
  level : Int
  monster_type : Int
  attributes : Attributes
  max_hp : Int
  hp : Int
  attack : Int
  defense : Int
  abilities : List Ability
  loot : List LootItem
deriving Repr, DecidableEq

/-- `Monster.__init__`.  `monster_type` is falsy (None/0) iff 0; a supplied
attributes dictionary always has its three keys (hence is truthy); a
supplied abilities list is falsy iff empty — each falsy argument is
regenerated, exactly as the source's `x or default` does. -/
def monsterInit (name : String) (level : Int) (monster_type : Int)
    (attributes : Option Attributes) (abilities : List Ability) (g : Dice) :
    Option (Monster × Dice) :=
  let mtp := if monster_type ≠ 0 then (monster_type, g)
    else g.choice [(1 : Int), 2, 3, 4] 1
  let mt := mtp.1
  let attrs := match attributes with
    | some a => a
    | none => generateAttributes level mt
  let max_hp := 5 + level * 3 + pyDiv attrs.strength 2
  let abp := if abilities ≠ [] then (abilities, mtp.2)
    else generateAbilities level mt mtp.2
  match generateLoot level mt abp.2 with
  | none => none
  | some (loot, g) =>
    some ({ name := name, level := level, monster_type := mt,
            attributes := attrs, max_hp := max_hp, hp := max_hp,
            attack := level + pyDiv attrs.strength 2,
            defense := 10 + pyDiv attrs.dexterity 2,
            abilities := abp.1, loot := loot }, g)

def Monster.to_dict (m : Monster) : MonsterDict :=
  { name := m.name, level := m.level, monster_type := m.monster_type,
    attributes := m.attributes, max_hp := m.max_hp, hp := m.hp,
    attack := m.attack, defense := m.defense, abilities := m.abilities,
    loot := m.loot }

/-- `Monster.from_dict`: rebuild through `__init__` (which redraws the
loot table and may redraw type/attributes/abilities for falsy data), then
override the stored stats and loot. -/
def Monster.from_dict (d : MonsterDict) (g : Dice) : Option (Monster × Dice) :=
  match monsterInit d.name d.level d.monster_type (some d.attributes)
      d.abilities g with
  | none => none
  | some (m, g) =>
    some ({ m with
        max_hp := d.max_hp, hp := d.hp, attack := d.attack,
        defense := d.defense, loot := d.loot }, g)

/-- Well-formedness a monster built by `Monster.__init__` always has: a
known monster type and a nonempty ability list. -/
def MonsterWF (m : Monster) : Prop :=
  (m.monster_type = 1 ∨ m.monster_type = 2 ∨ m.monster_type = 3 ∨
    m.monster_type = 4) ∧ m.abilities ≠ []

instance (m : Monster) : Decidable (MonsterWF m) := by
  unfold MonsterWF; infer_instance

theorem generateLoot_some (level mt : Int) (g : Dice)
    (hmt : mt = 1 ∨ mt = 2 ∨ mt = 3 ∨ mt = 4) :
    ∃ l g2, generateLoot level mt g = some (l, g2) := by
  obtain ⟨tn, htn⟩ : ∃ tn, typeNameOf mt = some tn := by
    rcases hmt with h | h | h | h <;> rw [h] <;> exact ⟨_, rfl⟩
  unfold generateLoot
  dsimp only
  by_cases hc : ((g.next.1 % 1000 : Nat) : Int) < 300 + 50 * level
  · rw [if_pos hc, htn]
    dsimp only
    exact ⟨_, _, rfl⟩
  · rw [if_neg hc]
    dsimp only
    exact ⟨_, _, rfl⟩

theorem monster_from_to_dict (m : Monster) (g : Dice) (hwf : MonsterWF m) :
    ∃ m2 g2, Monster.from_dict m.to_dict g = some (m2, g2) ∧
      m2.to_dict = m.to_dict := by
  obtain ⟨hmt, hab⟩ := hwf
  have h0 : m.monster_type ≠ 0 := by
    rcases hmt with h | h | h | h <;> rw [h] <;> decide
  unfold Monster.from_dict monsterInit Monster.to_dict
  dsimp only
  rw [if_pos h0]
  dsimp only
  rw [if_pos hab]
  dsimp only
  obtain ⟨l, g2, hl⟩ := generateLoot_some m.level m.monster_type g hmt
  rw [hl]
  dsimp only
  exact ⟨_, _, rfl, rfl⟩

/-- The dictionary `Character.to_dict` produces (`char_class` carries the
`"class"` key). -/
structure CharacterDict where
  name : String
  char_class : String
  origin : String
  level : Int
  xp : Int
  attributes : Attributes
  hp : Int
  mp : Int
  max_hp : Int
  max_mp : Int
  inventory : List InvItem
  equipment : Equipment
  skills : List Skill
deriving Repr, DecidableEq

def Character.to_dict (c : Character) : CharacterDict :=
  { name := c.name, char_class := c.char_class, origin := c.origin,
    level := c.level, xp := c.xp, attributes := c.attributes, hp := c.hp,
    mp := c.mp, max_hp := c.max_hp, max_mp := c.max_mp,
    inventory := c.inventory, equipment := c.equipment, skills := c.skills }

/-- `Character.from_dict`: rebuild through `__init__` with the stored
attributes (a stored attributes dictionary has its three keys, hence is
truthy and is never rerolled), then override every saved field. -/
def Character.from_dict (d : CharacterDict) : Character :=
  let c := Character.create d.name d.char_class d.origin d.attributes
  { c with
    level := d.level, xp := d.xp, hp := d.hp, mp := d.mp,
    max_hp := d.max_hp, max_mp := d.max_mp, inventory := d.inventory,
    equipment := d.equipment, skills := d.skills }

/-- The dictionary `Room.to_dict` produces. -/
structure RoomDict where
  row : Nat
  col : Nat
  links : Nat
  room_type : Option Nat
  discovered : Bool
  visited : Bool
  encounters : List PopEncounter
  treasures : List Treasure
  description : String
  features : List Feature
  difficulty : Int
deriving Repr, DecidableEq

def Room.to_dict (r : Room) : RoomDict :=
  { row := r.row, col := r.col, links := r.links, room_type := r.room_type,
    discovered := r.discovered, visited := r.visited,
    encounters := r.encounters, treasures := r.treasures,
    description := r.description, features := r.features,
    difficulty := r.difficulty }

/-- `Room.from_dict`: `Room(row, col)` then override every stored field. -/
def Room.from_dict (d : RoomDict) : Room :=
  let r := Room.init d.row d.col
  { r with
    links := d.links, room_type := d.room_type, discovered := d.discovered,
    visited := d.visited, encounters := d.encounters,
    treasures := d.treasures, description := d.description,
    features := d.features, difficulty := d.difficulty }

theorem character_from_to_dict (c : Character) :
    Character.from_dict c.to_dict = c := rfl

theorem room_from_to_dict (r : Room) : Room.from_dict r.to_dict = r := rfl

/-- The dictionary `DungeonLevel.to_dict` produces: the rooms are listed in
row-major order; `entrance`/`exit` are the `(row, col)` pairs (None when
unset — a set entrance is a room object, hence truthy). -/
structure DungeonLevelDict where
  rows : Nat
  cols : Nat
  level_num : Int
  theme : String
  rooms : List RoomDict
  entrance : Option (Nat × Nat)
  exit : Option (Nat × Nat)
  name : String
  description : String
deriving Repr, DecidableEq

def DungeonLevel.to_dict (d : DungeonLevel) : DungeonLevelDict :=
  { rows := d.rows, cols := d.cols, level_num := d.level_num,
    theme := d.theme,
    rooms := (List.range d.rows).flatMap
      (fun r => (List.range d.cols).map (fun c => (d.rooms r c).to_dict)),
    entrance := d.entrance, exit := d.exit, name := d.name,
    description := d.description }

/-- One step of the room-reconstruction loop of `DungeonLevel.from_dict`:
`dungeon.rooms[row][col] = Room.from_dict(room_data)` as a pointwise grid
update. -/
def gridStep (rooms : Nat → Nat → Room) (rd : RoomDict) : Nat → Nat → Room :=
  fun r c => if r = rd.row ∧ c = rd.col then Room.from_dict rd else rooms r c

/-- `DungeonLevel.from_dict`: rebuild through `__init__`, place each stored
room at its stored coordinates, then restore entrance, exit, name and
description.  `none` embeds the `IndexError` raised when a stored room or
the entrance/exit position lies outside the grid. -/
def DungeonLevel.from_dict (dd : DungeonLevelDict) : Option DungeonLevel :=
  if dd.rooms.all (fun rd => rd.row < dd.rows ∧ rd.col < dd.cols) then
    let d0 := DungeonLevel.init dd.rows dd.cols dd.level_num dd.theme
    let grid := dd.rooms.foldl gridStep d0.rooms
    let entOk := match dd.entrance with
      | none => true
      | some p => decide (p.1 < dd.rows ∧ p.2 < dd.cols)
    let exOk := match dd.exit with
      | none => true
      | some p => decide (p.1 < dd.rows ∧ p.2 < dd.cols)
    if entOk && exOk then
      some { rows := dd.rows, cols := dd.cols, level_num := dd.level_num,
             theme := dd.theme, rooms := grid, entrance := dd.entrance,
             exit := dd.exit, name := dd.name,
             description := dd.description }
    else none
  else none

theorem flatMap_congr {α β : Type} (l : List α) (f g : α → List β)
    (h : ∀ x ∈ l, f x = g x) : l.flatMap f = l.flatMap g := by
  induction l with
  | nil => rfl
  | cons x xs ih =>
    rw [List.flatMap_cons, List.flatMap_cons,
      h x (List.mem_cons_self x xs),
      ih (fun y hy => h y (List.mem_cons_of_mem x hy))]

theorem gridFold_at_none (l : List RoomDict) :
    ∀ (i : Nat → Nat → Room) (r c : Nat),
      (∀ rd ∈ l, ¬ (r = rd.row ∧ c = rd.col)) →
      (l.foldl gridStep i) r c = i r c := by
  induction l with
  | nil => intro i r c _; rfl
  | cons x xs ih =>
    intro i r c h
    rw [List.foldl_cons,
      ih (gridStep i x) r c (fun rd hrd => h rd (List.mem_cons_of_mem x hrd))]
    unfold gridStep
    rw [if_neg (h x (List.mem_cons_self x xs))]

theorem gridFold_at_unique (l : List RoomDict) :
    ∀ (i : Nat → Nat → Room) (r c : Nat) (rd : RoomDict),
      rd ∈ l → r = rd.row → c = rd.col →
      (∀ rd2 ∈ l, r = rd2.row → c = rd2.col → rd2 = rd) →
      (l.foldl gridStep i) r c = Room.from_dict rd := by
  induction l with
  | nil =>
    intro i r c rd hrd
    exact absurd hrd (List.not_mem_nil rd)
  | cons x xs ih =>
    intro i r c rd hrd hr hc huniq
    rw [List.foldl_cons]
    by_cases hxs : ∃ rd2 ∈ xs, r = rd2.row ∧ c = rd2.col
    · obtain ⟨rd2, hrd2, h2r, h2c⟩ := hxs
      have h2 : rd2 = rd := huniq rd2 (List.mem_cons_of_mem x hrd2) h2r h2c
      rw [← h2]
      exact ih (gridStep i x) r c rd2 hrd2 h2r h2c
        (fun rd3 h3 hr3 hc3 =>
          (huniq rd3 (List.mem_cons_of_mem x h3) hr3 hc3).trans h2.symm)
    · rw [gridFold_at_none xs (gridStep i x) r c
        (fun rd2 h2 hand => hxs ⟨rd2, h2, hand⟩)]
      have hrdx : rd = x := by
        rcases List.mem_cons.mp hrd with h | h
        · exact h
        · exact absurd ⟨rd, h, hr, hc⟩ hxs
      unfold gridStep
      rw [if_pos ⟨hrdx ▸ hr, hrdx ▸ hc⟩, hrdx]

theorem roomsList_mem (d : DungeonLevel) (r c : Nat)
    (hr : r < d.rows) (hc : c < d.cols) :
    (d.rooms r c).to_dict ∈ (List.range d.rows).flatMap
      (fun r => (List.range d.cols).map (fun c => (d.rooms r c).to_dict)) := by
  rw [List.mem_flatMap]
  exact ⟨r, List.mem_range.mpr hr,
    List.mem_map.mpr ⟨c, List.mem_range.mpr hc, rfl⟩⟩

theorem roomsList_mem_char (d : DungeonLevel) (rd : RoomDict)
    (h : rd ∈ (List.range d.rows).flatMap
      (fun r => (List.range d.cols).map (fun c => (d.rooms r c).to_dict))) :
    ∃ r c, r < d.rows ∧ c < d.cols ∧ rd = (d.rooms r c).to_dict := by
  rw [List.mem_flatMap] at h
  obtain ⟨r, hr, hm⟩ := h
  rw [List.mem_map] at hm
  obtain ⟨c, hc, hrd⟩ := hm
  exact ⟨r, c, List.mem_range.mp hr, List.mem_range.mp hc, hrd.symm⟩

theorem dungeon_from_to_dict (d : DungeonLevel)
    (hpos : ∀ r c, r < d.rows → c < d.cols →
      (d.rooms r c).row = r ∧ (d.rooms r c).col = c)
    (hent : ∀ p, d.entrance = some p → p.1 < d.rows ∧ p.2 < d.cols)
    (hex : ∀ p, d.exit = some p → p.1 < d.rows ∧ p.2 < d.cols) :
    ∃ d2, DungeonLevel.from_dict d.to_dict = some d2 ∧
      d2.to_dict = d.to_dict := by
  have hgrid : ∀ r c, r < d.rows → c < d.cols →
      (((List.range d.rows).flatMap
          (fun r => (List.range d.cols).map (fun c => (d.rooms r c).to_dict))).foldl
        gridStep
        (DungeonLevel.init d.rows d.cols d.level_num d.theme).rooms) r c =
      d.rooms r c := by
    intro r c hr hc
    rw [gridFold_at_unique _ _ r c ((d.rooms r c).to_dict)
      (roomsList_mem d r c hr hc)
      ((hpos r c hr hc).1).symm
      ((hpos r c hr hc).2).symm
      ?_]
    · exact room_from_to_dict (d.rooms r c)
    · intro rd2 h2 hr2 hc2
      obtain ⟨r2, c2, hr2b, hc2b, heq⟩ := roomsList_mem_char d rd2 h2
      subst heq
      have hrow : r2 = r := by
        have := (hpos r2 c2 hr2b hc2b).1
        rw [show (Room.to_dict (d.rooms r2 c2)).row = (d.rooms r2 c2).row
          from rfl, this] at hr2
        exact hr2.symm
      have hcol : c2 = c := by
        have := (hpos r2 c2 hr2b hc2b).2
        rw [show (Room.to_dict (d.rooms r2 c2)).col = (d.rooms r2 c2).col
          from rfl, this] at hc2
        exact hc2.symm
      rw [hrow, hcol]
  have hall : ((List.range d.rows).flatMap
      (fun r => (List.range d.cols).map (fun c => (d.rooms r c).to_dict))).all
      (fun rd => rd.row < d.rows ∧ rd.col < d.cols) = true := by
    rw [List.all_eq_true]
    intro rd hrd
    obtain ⟨r, c, hr, hc, heq⟩ := roomsList_mem_char d rd hrd
    subst heq
    rw [decide_eq_true_eq]
    have h1 := hpos r c hr hc
    exact ⟨by rw [show (Room.to_dict (d.rooms r c)).row = (d.rooms r c).row
        from rfl, h1.1]; exact hr,
      by rw [show (Room.to_dict (d.rooms r c)).col = (d.rooms r c).col
        from rfl, h1.2]; exact hc⟩
  unfold DungeonLevel.from_dict DungeonLevel.to_dict
  dsimp only
  rw [hall, if_pos rfl]
  rcases hE : d.entrance with _ | p <;> rcases hX : d.exit with _ | q <;>
    dsimp only <;>
    [skip;
     rw [show decide (q.1 < d.rows ∧ q.2 < d.cols) = true
       from decide_eq_true (hex q hX)];
     rw [show decide (p.1 < d.rows ∧ p.2 < d.cols) = true
       from decide_eq_true (hent p hE)];
     rw [show decide (p.1 < d.rows ∧ p.2 < d.cols) = true
       from decide_eq_true (hent p hE),
       show decide (q.1 < d.rows ∧ q.2 < d.cols) = true
       from decide_eq_true (hex q hX)]] <;>
    rw [if_pos (show (true && true) = true from rfl)] <;>
    refine ⟨_, rfl, ?_⟩ <;>
    try dsimp only
  all_goals
    congr 1 <;>
    refine flatMap_congr _ _ _ (fun r hr => ?_) <;>
    refine List.map_congr_left (fun c hc => ?_) <;>
    rw [hgrid r c (List.mem_range.mp hr) (List.mem_range.mp hc)]

/-- A trap-effect dictionary (`Encounter._generate_trap_effect`); the empty
`etype` stands for the empty dict of an unknown trap type. `etype` is the
`"type"` key. -/
structure TrapEffect where
  etype : String
  damage : Option Int := none
  status : Option String := none
  duration : Option Int := none
  distance : Option Int := none
  avoidable : Bool := false
  save_attribute : String := ""
  save_difficulty : Int := 0
deriving Repr, DecidableEq

def emptyTrapEffect : TrapEffect := { etype := "" }

/-- `Encounter._generate_trap_effect`. -/
def generateTrapEffect (trap_type : String) (difficulty : Int) (g : Dice) :
    TrapEffect × Dice :=
  if trap_type = "damage" then
    ({ etype := "damage", damage := some (2 + difficulty), avoidable := true,
       save_attribute := "dexterity", save_difficulty := 10 + difficulty }, g)
  else if trap_type = "status" then
    let c := g.choice ["poison", "slow", "weaken"] "poison"
    ({ etype := "status", status := some c.1,
       duration := some (1 + pyDiv difficulty 2), avoidable := true,
       save_attribute := "strength", save_difficulty := 10 + difficulty }, c.2)
  else if trap_type = "teleport" then
    ({ etype := "teleport", distance := some (1 + pyDiv difficulty 2),
       avoidable := true, save_attribute := "wisdom",
       save_difficulty := 10 + difficulty }, g)
  else (emptyTrapEffect, g)

/-- An encounter object.  A Python encounter only carries the attributes of
its own type branch; the unused branches keep their defaults here and are
never serialized. -/
structure Encounter where
  encounter_type : Int
  difficulty : Int
  completed : Bool
  description : String
  rewards : List LootItem
  monsters : List Monster := []
  ambush : Bool := false
  trap_type : String := ""
  detected : Bool := false
  disarmed : Bool := false
  effect : TrapEffect := emptyTrapEffect
  puzzle_type : String := ""
  hints : List String := []
  solution : String := ""
  solved : Bool := false
  reward : Option LootItem := none
deriving Repr, DecidableEq

/-- `Encounter.__init__` (COMBAT = 1, TRAP = 2, PUZZLE = 3). -/
def Encounter.init (encounter_type difficulty : Int) (g : Dice) :
    Encounter × Dice :=
  let base : Encounter :=
    { encounter_type := encounter_type, difficulty := difficulty,
      completed := false, description := "", rewards := [] }
  if encounter_type = 1 then
    let r := g.randLt 300
    ({ base with monsters := [], ambush := r.1 }, r.2)
  else if encounter_type = 2 then
    let c := g.choice ["damage", "status", "teleport"] "damage"
    let ef := generateTrapEffect c.1 difficulty c.2
    ({ base with
        trap_type := c.1, detected := false, disarmed := false,
        effect := ef.1 }, ef.2)
  else if encounter_type = 3 then
    let c := g.choice ["sequence", "pattern", "riddle"] "sequence"
    ({ base with
        puzzle_type := c.1, hints := [], solution := "",
        solved := false, reward := none }, c.2)
  else (base, g)

/-- The dictionary `Encounter.to_dict` produces; a `none` field is a key
the branch does not emit (reading it in `from_dict` raises `KeyError`). -/
structure EncounterDict where
  encounter_type : Int
  difficulty : Int
  completed : Bool
  description : String
  rewards : List LootItem
  monsters : Option (List MonsterDict) := none
  ambush : Option Bool := none
  trap_type : Option String := none
  detected : Option Bool := none
  disarmed : Option Bool := none
  effect : Option TrapEffect := none
  puzzle_type : Option String := none
  hints : Option (List String) := none
  solution : Option String := none
  solved : Option Bool := none
  reward : Option (Option LootItem) := none
deriving Repr, DecidableEq

def Encounter.to_dict (e : Encounter) : EncounterDict :=
  let base : EncounterDict :=
    { encounter_type := e.encounter_type, difficulty := e.difficulty,
      completed := e.completed, description := e.description,
      rewards := e.rewards }
  if e.encounter_type = 1 then
    { base with
      monsters := some (e.monsters.map Monster.to_dict),
      ambush := some e.ambush }
  else if e.encounter_type = 2 then
    { base with
      trap_type := some e.trap_type, detected := some e.detected,
      disarmed := some e.disarmed, effect := some e.effect }
  else if e.encounter_type = 3 then
    { base with
      puzzle_type := some e.puzzle_type, hints := some e.hints,
      solution := some e.solution, solved := some e.solved,
      reward := some e.reward }
  else base

/-- The monster list comprehension of `Encounter.from_dict`, threading the
random stream through each `Monster.from_dict`. -/
def monstersFromDicts : List MonsterDict → Dice → Option (List Monster × Dice)
  | [], g => some ([], g)
  | md :: mds, g =>
    match Monster.from_dict md g with
    | none => none
    | some (m, g) =>
      match monstersFromDicts mds g with
      | none => none
      | some (ms, g) => some (m :: ms, g)

/-- `Encounter.from_dict`: rebuild through `__init__` (which draws fresh
randomness), then restore the common and branch-specific fields. -/
def Encounter.from_dict (d : EncounterDict) (g : Dice) :
    Option (Encounter × Dice) :=
  let ig := Encounter.init d.encounter_type d.difficulty g
  let e0 := { ig.1 with
    completed := d.completed, description := d.description,
    rewards := d.rewards }
  if d.encounter_type = 1 then
    match d.monsters, d.ambush with
    | some mds, some amb =>
      match monstersFromDicts mds ig.2 with
      | none => none
      | some (ms, g) => some ({ e0 with monsters := ms, ambush := amb }, g)
    | _, _ => none
  else if d.encounter_type = 2 then
    match d.trap_type, d.detected, d.disarmed, d.effect with
    | some tt, some det, some dis, some ef =>
      some ({ e0 with
        trap_type := tt, detected := det, disarmed := dis,
        effect := ef }, ig.2)
    | _, _, _, _ => none
  else if d.encounter_type = 3 then
    match d.puzzle_type, d.hints, d.solution, d.solved, d.reward with
    | some pt, some hs, some sol, some sv, some rewinner =>
      some ({ e0 with
        puzzle_type := pt, hints := hs, solution := sol, solved := sv,
        reward := rewinner }, ig.2)
    | _, _, _, _, _ => none
  else some (e0, ig.2)

theorem monstersFromDicts_roundtrip : ∀ (ms : List Monster) (g : Dice),
    (∀ m ∈ ms, MonsterWF m) →
    ∃ ms2 g2, monstersFromDicts (ms.map Monster.to_dict) g = some (ms2, g2) ∧
      ms2.map Monster.to_dict = ms.map Monster.to_dict := by
  intro ms
  induction ms with
  | nil => intro g _; exact ⟨[], g, rfl, rfl⟩
  | cons m ms ih =>
    intro g h
    obtain ⟨m2, g2, hm, hmd⟩ :=
      monster_from_to_dict m g (h m (List.mem_cons_self m ms))
    obtain ⟨ms2, g3, hms, hmsd⟩ :=
      ih g2 (fun x hx => h x (List.mem_cons_of_mem m hx))
    refine ⟨m2 :: ms2, g3, ?_, ?_⟩
    · rw [List.map_cons]
      simp only [monstersFromDicts]
      rw [hm]
      dsimp only
      rw [hms]
    · rw [List.map_cons, List.map_cons, hmd, hmsd]

theorem encounterInit_fields (et diff : Int) (g : Dice) :
    (Encounter.init et diff g).1.encounter_type = et ∧
    (Encounter.init et diff g).1.difficulty = diff := by
  unfold Encounter.init
  dsimp only
  split_ifs <;> exact ⟨rfl, rfl⟩

theorem encounter_from_to_dict (e : Encounter) (g : Dice)
    (hm : ∀ m ∈ e.monsters, MonsterWF m) :
    ∃ e2 g2, Encounter.from_dict e.to_dict g = some (e2, g2) ∧
      e2.to_dict = e.to_dict := by
  obtain ⟨hif1, hif2⟩ := encounterInit_fields e.encounter_type e.difficulty g
  unfold Encounter.from_dict Encounter.to_dict
  by_cases h1 : e.encounter_type = 1
  · rw [if_pos h1]
    try dsimp only
    rw [if_pos h1]
    try dsimp only
    obtain ⟨ms2, g2, hms, hmsd⟩ := monstersFromDicts_roundtrip e.monsters
      ((Encounter.init e.encounter_type e.difficulty g).2) hm
    rw [hms]
    try dsimp only
    refine ⟨_, _, rfl, ?_⟩
    try dsimp only
    rw [hif1, hif2, if_pos h1]
    try dsimp only
    rw [hmsd]
  · rw [if_neg h1]
    by_cases h2 : e.encounter_type = 2
    · rw [if_pos h2]
      try dsimp only
      rw [if_neg h1, if_pos h2]
      try dsimp only
      refine ⟨_, _, rfl, ?_⟩
      try dsimp only
      rw [hif1, hif2, if_neg h1, if_pos h2]
    · rw [if_neg h2]
      by_cases h3 : e.encounter_type = 3
      · rw [if_pos h3]
        try dsimp only
        rw [if_neg h1, if_neg h2, if_pos h3]
        try dsimp only
        refine ⟨_, _, rfl, ?_⟩
        try dsimp only
        rw [hif1, hif2, if_neg h1, if_neg h2, if_pos h3]
      · rw [if_neg h3]
        try dsimp only
        rw [if_neg h1, if_neg h2, if_neg h3]
        try dsimp only
        refine ⟨_, _, rfl, ?_⟩
        try dsimp only
        rw [hif1, hif2, if_neg h1, if_neg h2, if_neg h3]

/-- C8: each of Character, Room, DungeonLevel, Monster and Encounter
round-trips through its `to_dict`/`from_dict` pair: every serialized field
is reproduced under the same name.  Character and Room round-trip exactly.
A DungeonLevel round-trips when its rooms carry their own grid coordinates
and entrance/exit lie inside the grid (always true of generated dungeons —
`from_dict` places each room at its stored coordinates).  A Monster
round-trips when its type is one of the four known types and its ability
list is nonempty (always true of `__init__`-built monsters, whose falsy
fields are regenerated); the regenerated loot table and the fresh
randomness consumed by `__init__` inside `from_dict` are overwritten by the
stored values.  An Encounter round-trips when its monsters are well-formed
in that same sense. -/
theorem c8_serialization_roundtrip
    (c : Character) (r : Room) (d : DungeonLevel) (m : Monster)
    (e : Encounter) (gm ge : Dice)
    (hpos : ∀ row col, row < d.rows → col < d.cols →
      (d.rooms row col).row = row ∧ (d.rooms row col).col = col)
    (hent : ∀ p, d.entrance = some p → p.1 < d.rows ∧ p.2 < d.cols)
    (hex : ∀ p, d.exit = some p → p.1 < d.rows ∧ p.2 < d.cols)
    (hm : MonsterWF m)
    (he : ∀ mm ∈ e.monsters, MonsterWF mm) :
    Character.from_dict c.to_dict = c ∧
    Room.from_dict r.to_dict = r ∧
    (∃ d2, DungeonLevel.from_dict d.to_dict = some d2 ∧
      d2.to_dict = d.to_dict) ∧
    (∃ m2 g2, Monster.from_dict m.to_dict gm = some (m2, g2) ∧
      m2.to_dict = m.to_dict) ∧
    (∃ e2 g2, Encounter.from_dict e.to_dict ge = some (e2, g2) ∧
      e2.to_dict = e.to_dict) :=
  ⟨character_from_to_dict c, room_from_to_dict r,
   dungeon_from_to_dict d hpos hent hex,
   monster_from_to_dict m gm hm,
   encounter_from_to_dict e ge he⟩

def c8Character : Character :=
  { name := "Hero", char_class := "Warrior", origin := "Summoned",
    level := 3, xp := 100, attributes := ⟨12, 10, 14⟩, max_hp := 20,
    max_mp := 15, hp := 18, mp := 9, inventory := [],
    equipment := ⟨none, none, none⟩, skills := [] }

def c8Room : Room :=
  { row := 1, col := 2, links := 5, room_type := some 3, discovered := true,
    visited := false, encounters := [], treasures := [], description := "x",
    features := [], difficulty := 2 }

def c8Dungeon : DungeonLevel :=
  { rows := 1, cols := 1, level_num := 1, theme := "neon",
    rooms := fun r c => Room.init r c, entrance := some (0, 0),
    exit := none, name := "L", description := "D" }

def c8Monster : Monster :=
  { name := "Bug", level := 2, monster_type := 4,
    attributes := ⟨12, 12, 12⟩, max_hp := 14, hp := 9, attack := 5,
    defense := 13, abilities := [{ name := "Infect" }], loot := [] }

def c8Encounter : Encounter :=
  { encounter_type := 1, difficulty := 2, completed := false,
    description := "amb", rewards := [], monsters := [c8Monster],
    ambush := true }

/-- C8 witness: a concrete instance of each of the five types
round-trips. -/
theorem c8_serialization_roundtrip_witness :
    Character.from_dict c8Character.to_dict = c8Character ∧
    Room.from_dict c8Room.to_dict = c8Room ∧
    (∃ d2, DungeonLevel.from_dict c8Dungeon.to_dict = some d2 ∧
      d2.to_dict = c8Dungeon.to_dict) ∧
    (∃ m2 g2, Monster.from_dict c8Monster.to_dict ⟨fun _ => 0, 0⟩ =
      some (m2, g2) ∧ m2.to_dict = c8Monster.to_dict) ∧
    (∃ e2 g2, Encounter.from_dict c8Encounter.to_dict ⟨fun _ => 0, 0⟩ =
      some (e2, g2) ∧ e2.to_dict = c8Encounter.to_dict) :=
  c8_serialization_roundtrip c8Character c8Room c8Dungeon c8Monster
    c8Encounter ⟨fun _ => 0, 0⟩ ⟨fun _ => 0, 0⟩
    (fun _ _ _ _ => ⟨rfl, rfl⟩)
    (fun p hp => by injection hp with h; subst h; exact ⟨by decide, by decide⟩)
    (fun p hp => Option.noConfusion hp)
    (by decide) (by decide)
